import Mathlib

/-!
# Verification of the Xandeum pNodes analytics reconciliation pipeline

Shallow embedding of the node reconciliation pipeline:
* address normalization (`fixPort`, `extractIp`) from `lib/xandeum-client.ts`;
* the gossip-sync cycle (preprocessing + database transaction) from
  `app/api/cron/gossip-sync/route.ts`;
* the stats-updater cycle from `app/api/cron/stats-updater/route.ts`;
* the RPC fallback loop (`fetchGossipDataWithFallback`);
* `getStats`, `resolveGeoLocation` from `lib/xandeum-client.ts`;
* the cached paginated nodes route (`app/api/nodes/route.ts`).

JavaScript strings are modelled as `String`/`List Char`; numbers as `ℚ`
(the claims under scrutiny do not depend on IEEE-754 rounding); absent
JSON fields as `Option`; the relational store as association lists keyed
by `ip`.  Remote exchanges (RPC calls, HTTP lookups) are modelled as
explicit outcome values threaded into the functions, timestamps are not
modelled (no claim mentions them).
-/

namespace Xandeum

/-! ## Address normalization (lib/xandeum-client.ts, fixPort / extractIp)

`fixPort` (JS): replace a `:9001` suffix with `:6000`; if no port at all,
append `:6000`; otherwise return unchanged.  `extractIp` (JS):
`ipWithPort.split(":")[0]`.  JS `String.replace` with a string pattern
replaces only the first occurrence; JS `String.includes` is substring
containment. -/

/-- JS `s.includes(pat)` on character lists. -/
def listContains (pat : List Char) : List Char → Bool
  | [] => pat.isPrefixOf []
  | c :: t => pat.isPrefixOf (c :: t) || listContains pat t

/-- JS `s.replace(pat, repl)` with a string pattern: replace the first
occurrence only; if the pattern does not occur, return the string. -/
def replaceFirstSub (pat repl : List Char) : List Char → List Char
  | [] => if pat.isPrefixOf ([] : List Char) then repl else []
  | c :: t =>
    if pat.isPrefixOf (c :: t) then repl ++ (c :: t).drop pat.length
    else c :: replaceFirstSub pat repl t

def pat9001 : List Char := [':', '9', '0', '0', '1']

def pat6000 : List Char := [':', '6', '0', '0', '0']

/-- `fixPort` from lib/xandeum-client.ts on character lists. -/
def fixPortL (s : List Char) : List Char :=
  if listContains pat9001 s then replaceFirstSub pat9001 pat6000 s
  else if s.contains ':' then s
  else s ++ pat6000

/-- `extractIp` from lib/xandeum-client.ts on character lists:
`split(":")[0]` is everything before the first colon. -/
def extractIpL (s : List Char) : List Char :=
  s.takeWhile (fun c => c ≠ ':')

/-- `fixPort` (a.k.a. the spec's `normalizeForRpc`) on `String`. -/
def fixPort (s : String) : String := (fixPortL s.data).asString

/-- `extractIp` (a.k.a. the spec's `canonicalKey`) on `String`. -/
def extractIp (s : String) : String := (extractIpL s.data).asString

theorem asString_data (l : List Char) : (l.asString).data = l := rfl

/-- Replacing a colon-initial pattern by a colon-initial replacement never
changes the segment before the first colon. -/
theorem takeWhile_replaceFirstSub (p r : List Char) (s : List Char) :
    (replaceFirstSub (':' :: p) (':' :: r) s).takeWhile (fun c => c ≠ ':')
      = s.takeWhile (fun c => c ≠ ':') := by
  induction s with
  | nil => simp [replaceFirstSub, List.isPrefixOf]
  | cons c t ih =>
    by_cases h : (':' :: p).isPrefixOf (c :: t)
    · have hc : c = ':' := by
        have h2 := h
        simp [List.isPrefixOf] at h2
        exact h2.1.symm
      subst hc
      simp [replaceFirstSub, h, List.takeWhile_cons]
    · rw [replaceFirstSub, if_neg h]
      by_cases hc : c = ':'
      · subst hc; simp [List.takeWhile_cons]
      · simp only [List.takeWhile_cons]
        rw [if_pos (by simp [hc]), if_pos (by simp [hc]), ih]

/-- A string with no colon is unchanged by `takeWhile (fun c => c ≠ ':')`. -/
theorem takeWhile_no_colon (s : List Char) (h : s.contains ':' = false) :
    s.takeWhile (fun c => c ≠ ':') = s := by
  induction s with
  | nil => rfl
  | cons c t ih =>
    rw [List.contains_cons, Bool.or_eq_false_iff] at h
    have hc : ¬c = ':' := by
      intro hx; subst hx; simp at h
    rw [List.takeWhile_cons, if_pos (by simp [hc]), ih h.2]

theorem takeWhile_append_colon (s r : List Char) (h : s.contains ':' = false) :
    (s ++ ':' :: r).takeWhile (fun c => c ≠ ':') = s := by
  induction s with
  | nil => simp [List.takeWhile_cons]
  | cons c t ih =>
    rw [List.contains_cons, Bool.or_eq_false_iff] at h
    have hc : ¬c = ':' := by
      intro hx; subst hx; simp at h
    rw [List.cons_append, List.takeWhile_cons, if_pos (by simp [hc]), ih h.2]

/-- Claim C5: for every address string, extracting the canonical key after
normalizing for RPC equals extracting the canonical key directly:
`extractIp (fixPort ip) = extractIp ip`.  (Stated for all strings, which
subsumes the claim's restriction to addresses whose bare-IP part contains
no colon: the part before the first colon never contains a colon.) -/
theorem extractIp_fixPort (s : String) : extractIp (fixPort s) = extractIp s := by
  unfold extractIp fixPort extractIpL fixPortL
  rw [asString_data]
  by_cases h1 : listContains pat9001 s.data
  · rw [if_pos h1]
    exact congrArg List.asString
      (takeWhile_replaceFirstSub ['9', '0', '0', '1'] ['6', '0', '0', '0'] s.data)
  · rw [if_neg h1]
    by_cases h2 : s.data.contains ':'
    · rw [if_pos h2]
    · rw [if_neg h2]
      apply congrArg List.asString
      rw [takeWhile_no_colon s.data (by simpa using h2)]
      exact takeWhile_append_colon s.data ['6', '0', '0', '0'] (by simpa using h2)

/-! ## Data model (prisma schema: Node, NodeSnapshot, NetworkStats, ErrorLog,
GeoCache).  All numeric columns are modelled as `ℚ`; `updatedAt`/`timestamp`
columns are not modelled (no claim depends on them).  A JS string field whose
absence the code tests by falsiness is modelled as a `String`, with `""`
standing for absent/empty (the two are indistinguishable to the code). -/

structure NodeRow where
  ip : String
  pubkey : Option String
  version : String
  country : String
  lat : ℚ
  lon : ℚ
  credits : ℚ
  storage : ℚ
  uptime : ℚ
  status : String
  cpuPercent : ℚ
  ramUsage : ℚ
  ramUsed : ℚ
  ramTotal : ℚ
  activeStreams : ℚ
  packetsReceived : ℚ
  packetsSent : ℚ
  isPublic : Bool
deriving Repr, DecidableEq

structure SnapshotRow where
  nodeIp : String
  credits : ℚ
  storage : ℚ
  uptime : ℚ
  status : String
  cpuPercent : ℚ
  ramUsage : ℚ
  ramUsed : ℚ
  ramTotal : ℚ
  activeStreams : ℚ
  packetsReceived : ℚ
  packetsSent : ℚ
deriving Repr, DecidableEq

structure NetworkStatsRow where
  activeNodes : Nat
  inactiveNodes : Nat
  totalStorage : ℚ
  totalCredits : ℚ
deriving Repr, DecidableEq

structure ErrorLogRow where
  source : String
  phase : String
  nodeId : Option String
  error : String
deriving Repr, DecidableEq

/-- An entry of the in-memory `errors` array that the cron routes build and
return in their JSON response. -/
structure ErrEntry where
  node : String
  error : String
  phase : String
deriving Repr, DecidableEq

/-- The relational store: the four tables the reconciliation cycles touch.
`nodes` is keyed by `ip` (unique in the schema); lookups scan for the first
row with the given key. -/
structure Store where
  nodes : List NodeRow
  snapshots : List SnapshotRow
  networkStats : List NetworkStatsRow
  errorLog : List ErrorLogRow
deriving Repr, DecidableEq

abbrev NodeDB := List NodeRow

/-- `db.node.findUnique / upsert where ip` key lookup. -/
def dbLookup (db : NodeDB) (ip : String) : Option NodeRow :=
  db.find? (fun r => r.ip == ip)

/-- `updateMany({data:{status:'inactive'}})`: step 4a of the gossip-sync
transaction, and the row transform of the stats-updater no-stats branch. -/
def setInactive (r : NodeRow) : NodeRow := { r with status := "inactive" }

def markAllInactive (db : NodeDB) : NodeDB := db.map setInactive

/-- `db.node.update where ip`: rewrite the (unique) row with the given key. -/
def updateFirst (ip : String) (f : NodeRow → NodeRow) : NodeDB → NodeDB
  | [] => []
  | r :: rs => if r.ip == ip then f r :: rs else r :: updateFirst ip f rs

/-! ## Gossip sync (app/api/cron/gossip-sync/route.ts) -/

/-- A raw pod record from `get-pods-with-stats`.  String fields use `""` for
absent (JS falsy); `storage` is a number-or-numeric-string-or-absent field,
modelled by its numeric value. -/
structure RawPod where
  address : String
  addr : String
  ip : String
  pubkey : String
  node_pubkey : String
  version : String
  storage : Option ℚ
  uptime : Option ℚ
  status : String
deriving Repr, DecidableEq

/-- `pod.address || pod.addr || (pod.ip ? pod.ip : "")`. -/
def podAddress (pod : RawPod) : String :=
  if pod.address ≠ "" then pod.address
  else if pod.addr ≠ "" then pod.addr
  else pod.ip

/-- `extractIp(address || pod.ip || "")`: the canonical IP derived for a raw
pod during gossip-sync preprocessing. -/
def podCanonIp (pod : RawPod) : String :=
  extractIp (if podAddress pod ≠ "" then podAddress pod
             else if pod.ip ≠ "" then pod.ip else "")

/-- Negation of the validation test `if (!ip || ip === "0.0.0.0")`. -/
def podValid (pod : RawPod) : Bool :=
  !(podCanonIp pod == "" || podCanonIp pod == "0.0.0.0")

/-- `pod.pubkey || pod.node_pubkey || null`. -/
def podPubkey (pod : RawPod) : Option String :=
  if pod.pubkey ≠ "" then some pod.pubkey
  else if pod.node_pubkey ≠ "" then some pod.node_pubkey
  else none

/-- `creditsMap[pubkey] || 0`, where indexing with `null` yields no entry. -/
def creditsFor (creditsMap : String → Option ℚ) : Option String → ℚ
  | none => 0
  | some k => (creditsMap k).getD 0

structure Geo where
  country : String
  lat : ℚ
  lon : ℚ
deriving Repr, DecidableEq

structure ProcessedNode where
  ip : String
  pubkey : Option String
  version : String
  credits : ℚ
  storage : ℚ
  uptime : ℚ
  status : String
  geo : Geo
deriving Repr, DecidableEq

/-- One iteration of the preprocessing loop (step 3 of the gossip-sync
route): either a processed node (valid IP) or `none` (validation failure).
The geo resolver is passed as a total function: `resolveGeoLocation` always
returns a `Geo` (sentinel on failure) and never throws. -/
def preprocessPod (creditsMap : String → Option ℚ) (geoFn : String → Geo)
    (pod : RawPod) : Option ProcessedNode :=
  if podValid pod then
    some { ip := podCanonIp pod
           pubkey := podPubkey pod
           version := pod.version
           credits := creditsFor creditsMap (podPubkey pod)
           storage := pod.storage.getD 0
           uptime := pod.uptime.getD 0
           status := "active"
           geo := geoFn (podCanonIp pod) }
  else none

def validationError (pod : RawPod) : ErrEntry :=
  { node := "unknown"
    error := "Missing or invalid IP address: " ++ podCanonIp pod
    phase := "validation" }

/-- The whole preprocessing loop: processed nodes in input order, plus the
`errors` array entries it pushes (one validation error per invalid pod). -/
def preprocess (creditsMap : String → Option ℚ) (geoFn : String → Geo) :
    List RawPod → List ProcessedNode × List ErrEntry
  | [] => ([], [])
  | pod :: rest =>
    let tail := preprocess creditsMap geoFn rest
    match preprocessPod creditsMap geoFn pod with
    | some p => (p :: tail.1, tail.2)
    | none => (tail.1, validationError pod :: tail.2)

/-- The `update` branch of the gossip-sync upsert: topology-owned fields
only; CPU/RAM/packet fields are left to the stats updater. -/
def applyGossip (p : ProcessedNode) (r : NodeRow) : NodeRow :=
  { r with pubkey := p.pubkey, version := p.version, country := p.geo.country,
           lat := p.geo.lat, lon := p.geo.lon, credits := p.credits,
           storage := p.storage, uptime := p.uptime, status := p.status }

/-- The `create` branch of the gossip-sync upsert: stats-owned fields are
zero-initialized and the node is public. -/
def createRow (p : ProcessedNode) : NodeRow :=
  { ip := p.ip, pubkey := p.pubkey, version := p.version,
    country := p.geo.country, lat := p.geo.lat, lon := p.geo.lon,
    credits := p.credits, storage := p.storage, uptime := p.uptime,
    status := p.status, cpuPercent := 0, ramUsage := 0, ramUsed := 0,
    ramTotal := 0, activeStreams := 0, packetsReceived := 0,
    packetsSent := 0, isPublic := true }

def upsertNode (db : NodeDB) (p : ProcessedNode) : NodeDB :=
  match dbLookup db p.ip with
  | some _ => updateFirst p.ip (applyGossip p) db
  | none => db ++ [createRow p]

def upsertAll (db : NodeDB) (ps : List ProcessedNode) : NodeDB :=
  ps.foldl upsertNode db

/-- The snapshot pushed for each upserted node in the transaction (CPU/RAM
fields zero, "will be updated by stats-updater"). -/
def gossipSnapshot (p : ProcessedNode) : SnapshotRow :=
  { nodeIp := p.ip, credits := p.credits, storage := p.storage,
    uptime := p.uptime, status := p.status, cpuPercent := 0, ramUsage := 0,
    ramUsed := 0, ramTotal := 0, activeStreams := 0, packetsReceived := 0,
    packetsSent := 0 }

def countInactive (db : NodeDB) : Nat :=
  (db.filter (fun r => r.status == "inactive")).length

/-- Step 4d: the NetworkStats rollup, computed from the processed set and a
count of rows still inactive after the upserts. -/
def gossipNetworkStats (dbAfter : NodeDB) (ps : List ProcessedNode) :
    NetworkStatsRow :=
  { activeNodes := (ps.filter (fun p => p.status == "active")).length
    inactiveNodes := countInactive dbAfter
    totalStorage := (ps.map (fun p => p.storage)).sum
    totalCredits := (ps.map (fun p => p.credits)).sum }

/-- A failure point inside the `db.$transaction` body.  Per-node upsert
failures are caught inside the body (phase `upsert`) and do not abort the
transaction; the aborting points are the bulk operations. -/
inductive TxFault
  | onMarkInactive
  | onSnapshots
  | onNetworkStats
deriving Repr, DecidableEq

/-- The `db.$transaction` body (steps 4a-4d).  Prisma semantics: if the body
throws anywhere, no write of the body persists; this is modelled by the body
returning `Except.error` without a state, and the caller keeping the
pre-transaction store. -/
def gossipTxBody (fault : Option TxFault) (st : Store)
    (ps : List ProcessedNode) : Except String Store :=
  if fault = some TxFault.onMarkInactive then
    Except.error "node updateMany failed"
  else if fault = some TxFault.onSnapshots then
    Except.error "nodeSnapshot createMany failed"
  else if fault = some TxFault.onNetworkStats then
    Except.error "networkStats create failed"
  else
    let dbAfter := upsertAll (markAllInactive st.nodes) ps
    Except.ok { st with
      nodes := dbAfter
      snapshots := st.snapshots ++ ps.map gossipSnapshot
      networkStats := st.networkStats ++ [gossipNetworkStats dbAfter ps] }

structure GossipResult where
  success : Bool
  phase : Option String
  nodesProcessed : Nat
  nodesUpserted : Nat
  snapshotsCreated : Nat
  errors : List ErrEntry
deriving Repr, DecidableEq

/-- The gossip-sync POST handler from the fetched pod list onward: the empty
check, preprocessing, the transaction and its `txError` handler (which logs
an error-log row with phase `transaction` and reports failure). -/
def gossipSyncCycle (fault : Option TxFault) (creditsMap : String → Option ℚ)
    (geoFn : String → Geo) (rawPods : List RawPod) (st : Store) :
    Store × GossipResult :=
  if rawPods.isEmpty then
    (st, { success := false, phase := none, nodesProcessed := 0,
           nodesUpserted := 0, snapshotsCreated := 0, errors := [] })
  else
    let pre := preprocess creditsMap geoFn rawPods
    match gossipTxBody fault st pre.1 with
    | Except.error msg =>
        ({ st with errorLog := st.errorLog ++
            [{ source := "cron/gossip-sync", phase := "transaction",
               nodeId := none, error := msg }] },
         { success := false, phase := some "transaction",
           nodesProcessed := pre.1.length, nodesUpserted := 0,
           snapshotsCreated := 0, errors := pre.2 })
    | Except.ok st2 =>
        (st2, { success := true, phase := none,
                nodesProcessed := pre.1.length,
                nodesUpserted := pre.1.length,
                snapshotsCreated := pre.1.length, errors := pre.2 })

/-! ### Characterization of the transaction's upsert loop -/

def applyOrCreate (p : ProcessedNode) : Option NodeRow → NodeRow
  | some r => applyGossip p r
  | none => createRow p

/-- The last processed node with a given canonical IP, if any: with a unique
key, later upserts of the same key overwrite earlier ones. -/
def lastPodAt : List ProcessedNode → String → Option ProcessedNode
  | [], _ => none
  | p :: rest, ip =>
    match lastPodAt rest ip with
    | some q => some q
    | none => if p.ip == ip then some p else none

/-- What the upsert loop leaves at key `ip`, as a function of what was there
before the loop. -/
def upsertResultAt (ps : List ProcessedNode) (ip : String)
    (prev : Option NodeRow) : Option NodeRow :=
  match lastPodAt ps ip with
  | some q => some (applyOrCreate q prev)
  | none => prev

theorem applyGossip_ip (p : ProcessedNode) (r : NodeRow) :
    (applyGossip p r).ip = r.ip := rfl

theorem dbLookup_nil (ip : String) : dbLookup [] ip = none := rfl

theorem dbLookup_cons_pos (r : NodeRow) (rs : NodeDB) (ip : String)
    (h : (r.ip == ip) = true) : dbLookup (r :: rs) ip = some r := by
  show List.find? (fun x => x.ip == ip) (r :: rs) = some r
  exact List.find?_cons_of_pos rs h

theorem dbLookup_cons_neg (r : NodeRow) (rs : NodeDB) (ip : String)
    (h : (r.ip == ip) = false) : dbLookup (r :: rs) ip = dbLookup rs ip := by
  show List.find? (fun x => x.ip == ip) (r :: rs) = List.find? (fun x => x.ip == ip) rs
  exact List.find?_cons_of_neg rs (by simp [h])

theorem lookup_updateFirst_self (f : NodeRow → NodeRow)
    (hf : ∀ r, (f r).ip = r.ip) (k : String) :
    ∀ db : NodeDB, dbLookup (updateFirst k f db) k = (dbLookup db k).map f := by
  intro db
  induction db with
  | nil => rfl
  | cons r rs ih =>
    by_cases hr : (r.ip == k) = true
    · rw [updateFirst, if_pos hr,
        dbLookup_cons_pos (f r) rs k (by rw [hf r]; exact hr),
        dbLookup_cons_pos r rs k hr]
      rfl
    · rw [updateFirst, if_neg hr,
        dbLookup_cons_neg r (updateFirst k f rs) k (by simpa using hr),
        dbLookup_cons_neg r rs k (by simpa using hr)]
      exact ih

theorem lookup_updateFirst_ne (f : NodeRow → NodeRow)
    (hf : ∀ r, (f r).ip = r.ip) (k ip : String) (h : ip ≠ k) :
    ∀ db : NodeDB, dbLookup (updateFirst k f db) ip = dbLookup db ip := by
  intro db
  induction db with
  | nil => rfl
  | cons r rs ih =>
    by_cases hr : (r.ip == k) = true
    · have hrip : r.ip = k := by simpa using hr
      have hpr : ((f r).ip == ip) = false := by
        rw [hf r, hrip]
        exact decide_eq_false fun hx => h hx.symm
      have hpr2 : (r.ip == ip) = false := by
        rw [hrip]; exact decide_eq_false fun hx => h hx.symm
      rw [updateFirst, if_pos hr, dbLookup_cons_neg (f r) rs ip hpr,
        dbLookup_cons_neg r rs ip hpr2]
    · rw [updateFirst, if_neg hr]
      by_cases hp : (r.ip == ip) = true
      · rw [dbLookup_cons_pos r _ ip hp, dbLookup_cons_pos r rs ip hp]
      · rw [dbLookup_cons_neg r _ ip (by simpa using hp),
          dbLookup_cons_neg r rs ip (by simpa using hp)]
        exact ih

theorem lookup_append_of_none (db : NodeDB) (r : NodeRow) (ip : String)
    (h : dbLookup db ip = none) :
    dbLookup (db ++ [r]) ip = if r.ip == ip then some r else none := by
  induction db with
  | nil =>
    rw [List.nil_append]
    by_cases hr : (r.ip == ip) = true
    · rw [if_pos hr]; exact dbLookup_cons_pos r [] ip hr
    · rw [if_neg hr, dbLookup_cons_neg r [] ip (by simpa using hr)]; rfl
  | cons x xs ih =>
    by_cases hx : (x.ip == ip) = true
    · rw [dbLookup_cons_pos x xs ip hx] at h; exact absurd h (by simp)
    · rw [dbLookup_cons_neg x xs ip (by simpa using hx)] at h
      rw [List.cons_append, dbLookup_cons_neg x (xs ++ [r]) ip (by simpa using hx)]
      exact ih h

theorem lookup_append_of_some (db : NodeDB) (r : NodeRow) (ip : String)
    (x : NodeRow) (h : dbLookup db ip = some x) :
    dbLookup (db ++ [r]) ip = some x := by
  induction db with
  | nil => exact absurd h (by simp [dbLookup])
  | cons y ys ih =>
    by_cases hy : (y.ip == ip) = true
    · rw [dbLookup_cons_pos y ys ip hy] at h
      rw [List.cons_append, dbLookup_cons_pos y (ys ++ [r]) ip hy]
      exact h
    · rw [dbLookup_cons_neg y ys ip (by simpa using hy)] at h
      rw [List.cons_append, dbLookup_cons_neg y (ys ++ [r]) ip (by simpa using hy)]
      exact ih h

theorem lookup_upsertNode_self (db : NodeDB) (p : ProcessedNode) :
    dbLookup (upsertNode db p) p.ip
      = some (applyOrCreate p (dbLookup db p.ip)) := by
  unfold upsertNode
  cases h : dbLookup db p.ip with
  | some r =>
    rw [lookup_updateFirst_self (applyGossip p) (applyGossip_ip p) p.ip db, h]
    rfl
  | none =>
    rw [lookup_append_of_none db _ p.ip h]
    simp [createRow, applyOrCreate]

theorem lookup_upsertNode_ne (db : NodeDB) (p : ProcessedNode) (ip : String)
    (h : ip ≠ p.ip) :
    dbLookup (upsertNode db p) ip = dbLookup db ip := by
  unfold upsertNode
  cases hl : dbLookup db p.ip with
  | some r => exact lookup_updateFirst_ne (applyGossip p) (applyGossip_ip p) p.ip ip h db
  | none =>
    cases hip : dbLookup db ip with
    | some x => exact lookup_append_of_some db _ ip x hip
    | none =>
      rw [lookup_append_of_none db _ ip hip]
      have hcr : ((createRow p).ip == ip) = false := by
        show (p.ip == ip) = false
        exact decide_eq_false fun hx => h hx.symm
      simp [hcr]

theorem lookup_markAllInactive (db : NodeDB) (ip : String) :
    dbLookup (markAllInactive db) ip = (dbLookup db ip).map setInactive := by
  induction db with
  | nil => rfl
  | cons r rs ih =>
    by_cases hr : (r.ip == ip) = true
    · rw [markAllInactive, List.map_cons,
        dbLookup_cons_pos (setInactive r) (rs.map setInactive) ip (by simpa [setInactive] using hr),
        dbLookup_cons_pos r rs ip hr]
      rfl
    · rw [markAllInactive, List.map_cons,
        dbLookup_cons_neg (setInactive r) (rs.map setInactive) ip (by simpa [setInactive] using hr),
        dbLookup_cons_neg r rs ip (by simpa using hr)]
      exact ih

theorem lastPodAt_ip (ps : List ProcessedNode) (ip : String)
    (q : ProcessedNode) (h : lastPodAt ps ip = some q) : q.ip = ip := by
  induction ps with
  | nil => exact absurd h (by simp [lastPodAt])
  | cons p rest ih =>
    rw [lastPodAt] at h
    cases hl : lastPodAt rest ip with
    | some q2 => rw [hl] at h; cases h; exact ih hl
    | none =>
      rw [hl] at h
      by_cases hp : (p.ip == ip) = true
      · rw [if_pos hp] at h; cases h; simpa using hp
      · rw [if_neg hp] at h; exact absurd h (by simp)

theorem lastPodAt_mem (ps : List ProcessedNode) (ip : String)
    (q : ProcessedNode) (h : lastPodAt ps ip = some q) : q ∈ ps := by
  induction ps with
  | nil => exact absurd h (by simp [lastPodAt])
  | cons p rest ih =>
    rw [lastPodAt] at h
    cases hl : lastPodAt rest ip with
    | some q2 => rw [hl] at h; cases h; exact List.mem_cons_of_mem p (ih hl)
    | none =>
      rw [hl] at h
      by_cases hp : (p.ip == ip) = true
      · rw [if_pos hp] at h
        injection h with h2
        rw [← h2]
        exact List.mem_cons_self p rest
      · rw [if_neg hp] at h; exact absurd h (by simp)

theorem lastPodAt_none_iff (ps : List ProcessedNode) (ip : String) :
    lastPodAt ps ip = none ↔ ∀ p ∈ ps, p.ip ≠ ip := by
  induction ps with
  | nil => simp [lastPodAt]
  | cons p rest ih =>
    constructor
    · intro h x hx
      rw [lastPodAt] at h
      cases hl : lastPodAt rest ip with
      | some q => rw [hl] at h; exact absurd h (by simp)
      | none =>
        rw [hl] at h
        by_cases hp : (p.ip == ip) = true
        · rw [if_pos hp] at h; exact absurd h (by simp)
        · rcases List.mem_cons.mp hx with h1 | h2
          · subst h1; simpa using hp
          · exact ih.mp hl x h2
    · intro hall
      have hl : lastPodAt rest ip = none :=
        ih.mpr fun x hx => hall x (List.mem_cons_of_mem p hx)
      have hp : ¬(p.ip == ip) = true := by
        simpa using hall p (List.mem_cons_self p rest)
      rw [lastPodAt, hl, if_neg hp]

/-- Re-applying gossip fields at the same key collapses: the update only
reads stats-owned fields of its input, which gossip writes never change. -/
theorem applyGossip_applyOrCreate (q p : ProcessedNode) (x : Option NodeRow)
    (h : q.ip = p.ip) :
    applyGossip q (applyOrCreate p x) = applyOrCreate q x := by
  cases x with
  | some r => rfl
  | none =>
    show applyGossip q (createRow p) = createRow q
    simp [applyGossip, createRow, h]

theorem applyGossip_setInactive (q : ProcessedNode) (r : NodeRow) :
    applyGossip q (setInactive r) = applyGossip q r := rfl

theorem upsertResultAt_some (ps : List ProcessedNode) (ip : String)
    (q : ProcessedNode) (h : lastPodAt ps ip = some q) (prev : Option NodeRow) :
    upsertResultAt ps ip prev = some (applyOrCreate q prev) := by
  unfold upsertResultAt; rw [h]

theorem upsertResultAt_none (ps : List ProcessedNode) (ip : String)
    (h : lastPodAt ps ip = none) (prev : Option NodeRow) :
    upsertResultAt ps ip prev = prev := by
  unfold upsertResultAt; rw [h]

/-- Characterization of the upsert loop at a single key. -/
theorem lookup_upsertAll (ps : List ProcessedNode) :
    ∀ (db : NodeDB) (ip : String),
      dbLookup (upsertAll db ps) ip = upsertResultAt ps ip (dbLookup db ip) := by
  induction ps with
  | nil => intro db ip; rfl
  | cons p rest ih =>
    intro db ip
    have hstep : upsertAll db (p :: rest) = upsertAll (upsertNode db p) rest := rfl
    rw [hstep, ih (upsertNode db p) ip]
    cases hl : lastPodAt rest ip with
    | some q =>
      have hq : q.ip = ip := lastPodAt_ip rest ip q hl
      have h2 : lastPodAt (p :: rest) ip = some q := by rw [lastPodAt, hl]
      rw [upsertResultAt_some rest ip q hl, upsertResultAt_some (p :: rest) ip q h2]
      by_cases hip : ip = p.ip
      · subst hip
        rw [lookup_upsertNode_self db p]
        exact congrArg some (applyGossip_applyOrCreate q p (dbLookup db p.ip) hq)
      · rw [lookup_upsertNode_ne db p ip hip]
    | none =>
      by_cases hp : (p.ip == ip) = true
      · have hip : ip = p.ip := by
          have hx : p.ip = ip := by simpa using hp
          exact hx.symm
        subst hip
        have h2 : lastPodAt (p :: rest) p.ip = some p := by
          rw [lastPodAt, hl, if_pos hp]
        rw [upsertResultAt_none rest p.ip hl,
          upsertResultAt_some (p :: rest) p.ip p h2,
          lookup_upsertNode_self db p]
      · have hip : ip ≠ p.ip := by
          intro hx
          rw [hx] at hp
          simp at hp
        have h2 : lastPodAt (p :: rest) ip = none := by
          rw [lastPodAt, hl, if_neg hp]
        rw [upsertResultAt_none rest ip hl,
          upsertResultAt_none (p :: rest) ip h2,
          lookup_upsertNode_ne db p ip hip]

/-! ### Preprocessing facts -/

theorem preprocess_errors (creditsMap : String → Option ℚ) (geoFn : String → Geo) :
    ∀ pods : List RawPod,
      (preprocess creditsMap geoFn pods).2
        = (pods.filter (fun pod => !podValid pod)).map validationError := by
  intro pods
  induction pods with
  | nil => rfl
  | cons pod rest ih =>
    cases hv : podValid pod with
    | false => simp [preprocess, preprocessPod, hv, List.filter_cons, ih]
    | true => simp [preprocess, preprocessPod, hv, List.filter_cons, ih]

theorem preprocess_length (creditsMap : String → Option ℚ) (geoFn : String → Geo) :
    ∀ pods : List RawPod,
      (preprocess creditsMap geoFn pods).1.length
        = (pods.filter (fun pod => podValid pod)).length := by
  intro pods
  induction pods with
  | nil => rfl
  | cons pod rest ih =>
    cases hv : podValid pod with
    | false => simp [preprocess, preprocessPod, hv, List.filter_cons, ih]
    | true => simp [preprocess, preprocessPod, hv, List.filter_cons, ih]

theorem preprocess_status (creditsMap : String → Option ℚ) (geoFn : String → Geo) :
    ∀ pods : List RawPod, ∀ p ∈ (preprocess creditsMap geoFn pods).1,
      p.status = "active" := by
  intro pods
  induction pods with
  | nil => intro p hp; exact absurd hp (by simp [preprocess])
  | cons pod rest ih =>
    intro p hp
    cases hv : podValid pod with
    | false =>
      rw [show preprocess creditsMap geoFn (pod :: rest)
            = ((preprocess creditsMap geoFn rest).1,
               validationError pod :: (preprocess creditsMap geoFn rest).2) by
        simp [preprocess, preprocessPod, hv]] at hp
      exact ih p hp
    | true =>
      rw [show (preprocess creditsMap geoFn (pod :: rest)).1
            = { ip := podCanonIp pod, pubkey := podPubkey pod,
                version := pod.version,
                credits := creditsFor creditsMap (podPubkey pod),
                storage := pod.storage.getD 0, uptime := pod.uptime.getD 0,
                status := "active", geo := geoFn (podCanonIp pod) }
              :: (preprocess creditsMap geoFn rest).1 by
        simp [preprocess, preprocessPod, hv]] at hp
      rcases List.mem_cons.mp hp with h1 | h2
      · rw [h1]
      · exact ih p h2

theorem preprocess_exists_ip (creditsMap : String → Option ℚ)
    (geoFn : String → Geo) :
    ∀ pods : List RawPod, ∀ pod ∈ pods, podValid pod = true →
      ∃ p ∈ (preprocess creditsMap geoFn pods).1, p.ip = podCanonIp pod := by
  intro pods
  induction pods with
  | nil => intro pod hmem; exact absurd hmem (by simp)
  | cons pod0 rest ih =>
    intro pod hmem hv
    rcases List.mem_cons.mp hmem with h1 | h2
    · subst h1
      refine ⟨{ ip := podCanonIp pod, pubkey := podPubkey pod,
                version := pod.version,
                credits := creditsFor creditsMap (podPubkey pod),
                storage := pod.storage.getD 0, uptime := pod.uptime.getD 0,
                status := "active", geo := geoFn (podCanonIp pod) }, ?_, rfl⟩
      rw [show (preprocess creditsMap geoFn (pod :: rest)).1
            = { ip := podCanonIp pod, pubkey := podPubkey pod,
                version := pod.version,
                credits := creditsFor creditsMap (podPubkey pod),
                storage := pod.storage.getD 0, uptime := pod.uptime.getD 0,
                status := "active", geo := geoFn (podCanonIp pod) }
              :: (preprocess creditsMap geoFn rest).1 by
        simp [preprocess, preprocessPod, hv]]
      exact List.mem_cons_self _ _
    · obtain ⟨p, hp, hip⟩ := ih pod h2 hv
      refine ⟨p, ?_, hip⟩
      cases hv0 : podValid pod0 with
      | false =>
        rw [show (preprocess creditsMap geoFn (pod0 :: rest)).1
              = (preprocess creditsMap geoFn rest).1 by
          simp [preprocess, preprocessPod, hv0]]
        exact hp
      | true =>
        rw [show (preprocess creditsMap geoFn (pod0 :: rest)).1
              = { ip := podCanonIp pod0, pubkey := podPubkey pod0,
                  version := pod0.version,
                  credits := creditsFor creditsMap (podPubkey pod0),
                  storage := pod0.storage.getD 0, uptime := pod0.uptime.getD 0,
                  status := "active", geo := geoFn (podCanonIp pod0) }
                :: (preprocess creditsMap geoFn rest).1 by
          simp [preprocess, preprocessPod, hv0]]
        exact List.mem_cons_of_mem _ hp

theorem preprocess_ips_from (creditsMap : String → Option ℚ)
    (geoFn : String → Geo) :
    ∀ pods : List RawPod, ∀ p ∈ (preprocess creditsMap geoFn pods).1,
      ∃ pod ∈ pods, podValid pod = true ∧ p.ip = podCanonIp pod := by
  intro pods
  induction pods with
  | nil => intro p hp; exact absurd hp (by simp [preprocess])
  | cons pod rest ih =>
    intro p hp
    cases hv : podValid pod with
    | false =>
      rw [show (preprocess creditsMap geoFn (pod :: rest)).1
            = (preprocess creditsMap geoFn rest).1 by
        simp [preprocess, preprocessPod, hv]] at hp
      obtain ⟨pod2, h2, h3, h4⟩ := ih p hp
      exact ⟨pod2, List.mem_cons_of_mem pod h2, h3, h4⟩
    | true =>
      rw [show (preprocess creditsMap geoFn (pod :: rest)).1
            = { ip := podCanonIp pod, pubkey := podPubkey pod,
                version := pod.version,
                credits := creditsFor creditsMap (podPubkey pod),
                storage := pod.storage.getD 0, uptime := pod.uptime.getD 0,
                status := "active", geo := geoFn (podCanonIp pod) }
              :: (preprocess creditsMap geoFn rest).1 by
        simp [preprocess, preprocessPod, hv]] at hp
      rcases List.mem_cons.mp hp with h1 | h2
      · exact ⟨pod, List.mem_cons_self _ _, hv, by rw [h1]⟩
      · obtain ⟨pod2, ha, hb, hc⟩ := ih p h2
        exact ⟨pod2, List.mem_cons_of_mem pod ha, hb, hc⟩

theorem status_applyOrCreate (q : ProcessedNode) (x : Option NodeRow) :
    (applyOrCreate q x).status = q.status := by
  cases x <;> rfl

/-- Unfolding of a fault-free gossip-sync cycle on a non-empty pod list. -/
theorem gossipSyncCycle_none_eq (creditsMap : String → Option ℚ)
    (geoFn : String → Geo) (rawPods : List RawPod) (st : Store)
    (hne : rawPods ≠ []) :
    gossipSyncCycle none creditsMap geoFn rawPods st =
      ({ st with
          nodes := upsertAll (markAllInactive st.nodes)
            (preprocess creditsMap geoFn rawPods).1
          snapshots := st.snapshots
            ++ (preprocess creditsMap geoFn rawPods).1.map gossipSnapshot
          networkStats := st.networkStats
            ++ [gossipNetworkStats
                  (upsertAll (markAllInactive st.nodes)
                    (preprocess creditsMap geoFn rawPods).1)
                  (preprocess creditsMap geoFn rawPods).1] },
       { success := true, phase := none,
         nodesProcessed := (preprocess creditsMap geoFn rawPods).1.length
         nodesUpserted := (preprocess creditsMap geoFn rawPods).1.length
         snapshotsCreated := (preprocess creditsMap geoFn rawPods).1.length
         errors := (preprocess creditsMap geoFn rawPods).2 }) := by
  have h1 : rawPods.isEmpty = false := by
    cases rawPods with
    | nil => exact absurd rfl hne
    | cons a l => rfl
  simp [gossipSyncCycle, gossipTxBody, h1]

/-- Claim C1: after one fault-free gossip-sync cycle whose fetched pod list
has N records with a valid (non-empty, non-all-zero) canonical IP and M
records with an empty or all-zero one, exactly the N valid records are
upserted (`nodesUpserted = N`) and each valid canonical IP ends up stored
with status `active`; M validation-phase errors are recorded; and every node
row stored before the cycle whose IP is not among the valid canonical IPs is
left with status `inactive` (the mark-all-inactive step precedes every
upsert in the transaction). -/
theorem gossip_sync_active_inactive (creditsMap : String → Option ℚ)
    (geoFn : String → Geo) (rawPods : List RawPod) (st : Store)
    (hne : rawPods ≠ []) :
    (gossipSyncCycle none creditsMap geoFn rawPods st).2.nodesUpserted
        = (rawPods.filter (fun pod => podValid pod)).length
    ∧ ((gossipSyncCycle none creditsMap geoFn rawPods st).2.errors.filter
          (fun e => e.phase == "validation")).length
        = (rawPods.filter (fun pod => !podValid pod)).length
    ∧ (∀ pod ∈ rawPods, podValid pod = true →
        ∃ r, dbLookup (gossipSyncCycle none creditsMap geoFn rawPods st).1.nodes
              (podCanonIp pod) = some r ∧ r.status = "active")
    ∧ (∀ ip r, dbLookup st.nodes ip = some r →
        (∀ pod ∈ rawPods, podValid pod = true → podCanonIp pod ≠ ip) →
        ∃ r2, dbLookup (gossipSyncCycle none creditsMap geoFn rawPods st).1.nodes ip
              = some r2 ∧ r2.status = "inactive") := by
  rw [gossipSyncCycle_none_eq creditsMap geoFn rawPods st hne]
  refine ⟨preprocess_length creditsMap geoFn rawPods, ?_, ?_, ?_⟩
  · rw [preprocess_errors creditsMap geoFn rawPods]
    have hall : ((rawPods.filter (fun pod => !podValid pod)).map
        validationError).filter (fun e => e.phase == "validation")
        = (rawPods.filter (fun pod => !podValid pod)).map validationError := by
      apply List.filter_eq_self.mpr
      intro e he
      obtain ⟨pod, _, hpe⟩ := List.mem_map.mp he
      rw [← hpe]
      rfl
    rw [hall, List.length_map]
  · intro pod hmem hv
    obtain ⟨p, hp, hip⟩ :=
      preprocess_exists_ip creditsMap geoFn rawPods pod hmem hv
    have hlast : lastPodAt (preprocess creditsMap geoFn rawPods).1
        (podCanonIp pod) ≠ none := by
      intro hnone
      exact (lastPodAt_none_iff _ _ |>.mp hnone) p hp hip
    cases hq : lastPodAt (preprocess creditsMap geoFn rawPods).1 (podCanonIp pod) with
    | none => exact absurd hq hlast
    | some q =>
      refine ⟨applyOrCreate q
        ((dbLookup st.nodes (podCanonIp pod)).map setInactive), ?_, ?_⟩
      · rw [lookup_upsertAll _ (markAllInactive st.nodes) (podCanonIp pod),
          upsertResultAt_some _ _ q hq, lookup_markAllInactive]
      · rw [status_applyOrCreate]
        exact preprocess_status creditsMap geoFn rawPods q
          (lastPodAt_mem _ _ q hq)
  · intro ip r hr hnot
    have hlast : lastPodAt (preprocess creditsMap geoFn rawPods).1 ip = none := by
      apply (lastPodAt_none_iff _ _).mpr
      intro p hp
      obtain ⟨pod, hmem, hv, hipeq⟩ :=
        preprocess_ips_from creditsMap geoFn rawPods p hp
      rw [hipeq]
      exact hnot pod hmem hv
    refine ⟨setInactive r, ?_, rfl⟩
    rw [lookup_upsertAll _ (markAllInactive st.nodes) ip,
      upsertResultAt_none _ _ hlast, lookup_markAllInactive, hr]
    rfl

/-- Concrete input for the C1 witness: one pod with a valid address, one pod
with an all-zero address; a pre-existing stored row absent from the gossip
response. -/
def c1Pods : List RawPod :=
  [{ address := "10.0.0.1:9001", addr := "", ip := "", pubkey := "pk1",
     node_pubkey := "", version := "1.0", storage := some 5, uptime := some 7,
     status := "" },
   { address := "", addr := "", ip := "0.0.0.0:6000", pubkey := "",
     node_pubkey := "", version := "1.0", storage := none, uptime := none,
     status := "" }]

def c1OldRow : NodeRow :=
  { ip := "9.9.9.9", pubkey := none, version := "0.9", country := "US",
    lat := 1, lon := 2, credits := 3, storage := 4, uptime := 5,
    status := "active", cpuPercent := 0, ramUsage := 0, ramUsed := 0,
    ramTotal := 0, activeStreams := 0, packetsReceived := 0, packetsSent := 0,
    isPublic := true }

def c1Store : Store :=
  { nodes := [c1OldRow], snapshots := [], networkStats := [], errorLog := [] }

def c1Geo : String → Geo := fun _ => { country := "DE", lat := 9, lon := 8 }

theorem gossip_sync_active_inactive_witness :
    c1Pods ≠ ([] : List RawPod)
    ∧ ((gossipSyncCycle none (fun _ => none) c1Geo c1Pods c1Store).2.nodesUpserted
        = (c1Pods.filter (fun pod => podValid pod)).length
      ∧ ((gossipSyncCycle none (fun _ => none) c1Geo c1Pods c1Store).2.errors.filter
            (fun e => e.phase == "validation")).length
          = (c1Pods.filter (fun pod => !podValid pod)).length
      ∧ (∀ pod ∈ c1Pods, podValid pod = true →
          ∃ r, dbLookup (gossipSyncCycle none (fun _ => none) c1Geo c1Pods c1Store).1.nodes
                (podCanonIp pod) = some r ∧ r.status = "active")
      ∧ (∀ ip r, dbLookup c1Store.nodes ip = some r →
          (∀ pod ∈ c1Pods, podValid pod = true → podCanonIp pod ≠ ip) →
          ∃ r2, dbLookup (gossipSyncCycle none (fun _ => none) c1Geo c1Pods c1Store).1.nodes ip
                = some r2 ∧ r2.status = "inactive")) :=
  ⟨by decide,
   gossip_sync_active_inactive (fun _ => none) c1Geo c1Pods c1Store (by decide)⟩

/-- Claim C2: any exception inside the gossip-sync database transaction rolls
the whole transaction back: the node table, snapshot table and network-stats
table are exactly as before the cycle, and the cycle reports failure with
phase `transaction`. -/
theorem gossip_sync_tx_rollback (f : TxFault) (creditsMap : String → Option ℚ)
    (geoFn : String → Geo) (rawPods : List RawPod) (st : Store)
    (hne : rawPods ≠ []) :
    (gossipSyncCycle (some f) creditsMap geoFn rawPods st).1.nodes = st.nodes
    ∧ (gossipSyncCycle (some f) creditsMap geoFn rawPods st).1.snapshots
        = st.snapshots
    ∧ (gossipSyncCycle (some f) creditsMap geoFn rawPods st).1.networkStats
        = st.networkStats
    ∧ (gossipSyncCycle (some f) creditsMap geoFn rawPods st).2.success = false
    ∧ (gossipSyncCycle (some f) creditsMap geoFn rawPods st).2.phase
        = some "transaction" := by
  have h1 : rawPods.isEmpty = false := by
    cases rawPods with
    | nil => exact absurd rfl hne
    | cons a l => rfl
  cases f <;> simp [gossipSyncCycle, gossipTxBody, h1]

theorem gossip_sync_tx_rollback_witness :
    c1Pods ≠ ([] : List RawPod)
    ∧ ((gossipSyncCycle (some TxFault.onSnapshots) (fun _ => none) c1Geo c1Pods c1Store).1.nodes
        = c1Store.nodes
      ∧ (gossipSyncCycle (some TxFault.onSnapshots) (fun _ => none) c1Geo c1Pods c1Store).1.snapshots
          = c1Store.snapshots
      ∧ (gossipSyncCycle (some TxFault.onSnapshots) (fun _ => none) c1Geo c1Pods c1Store).1.networkStats
          = c1Store.networkStats
      ∧ (gossipSyncCycle (some TxFault.onSnapshots) (fun _ => none) c1Geo c1Pods c1Store).2.success = false
      ∧ (gossipSyncCycle (some TxFault.onSnapshots) (fun _ => none) c1Geo c1Pods c1Store).2.phase
          = some "transaction") :=
  ⟨by decide,
   gossip_sync_tx_rollback TxFault.onSnapshots (fun _ => none) c1Geo c1Pods
     c1Store (by decide)⟩

theorem setInactive_setInactive (r : NodeRow) :
    setInactive (setInactive r) = setInactive r := rfl

/-- Re-running mark-all-inactive plus the upsert loop over a state it already
produced changes nothing at any key. -/
theorem upsertResultAt_idem (ps : List ProcessedNode) (ip : String)
    (x : Option NodeRow) :
    upsertResultAt ps ip
        ((upsertResultAt ps ip (x.map setInactive)).map setInactive)
      = upsertResultAt ps ip (x.map setInactive) := by
  cases hq : lastPodAt ps ip with
  | none =>
    rw [upsertResultAt_none ps ip hq, upsertResultAt_none ps ip hq]
    cases x with
    | none => rfl
    | some r => rfl
  | some q =>
    rw [upsertResultAt_some ps ip q hq, upsertResultAt_some ps ip q hq]
    show some (applyGossip q (setInactive (applyOrCreate q (x.map setInactive))))
      = some (applyOrCreate q (x.map setInactive))
    rw [applyGossip_setInactive]
    exact congrArg some
      (applyGossip_applyOrCreate q q (x.map setInactive) rfl)

/-- Claim C3: running the gossip-sync cycle twice in succession with
identical upstream data (same pod list, credits map and geo results) yields
the same Node rows after the second run as after the first (pointwise at
every key), and each run appends exactly one NodeSnapshot row per processed
node and exactly one NetworkStats row. -/
theorem gossip_sync_idempotent (creditsMap : String → Option ℚ)
    (geoFn : String → Geo) (rawPods : List RawPod) (st : Store)
    (hne : rawPods ≠ []) :
    (∀ ip, dbLookup (gossipSyncCycle none creditsMap geoFn rawPods
          (gossipSyncCycle none creditsMap geoFn rawPods st).1).1.nodes ip
        = dbLookup (gossipSyncCycle none creditsMap geoFn rawPods st).1.nodes ip)
    ∧ (gossipSyncCycle none creditsMap geoFn rawPods st).1.snapshots.length
        = st.snapshots.length + (preprocess creditsMap geoFn rawPods).1.length
    ∧ (gossipSyncCycle none creditsMap geoFn rawPods
          (gossipSyncCycle none creditsMap geoFn rawPods st).1).1.snapshots.length
        = (gossipSyncCycle none creditsMap geoFn rawPods st).1.snapshots.length
          + (preprocess creditsMap geoFn rawPods).1.length
    ∧ (gossipSyncCycle none creditsMap geoFn rawPods st).1.networkStats.length
        = st.networkStats.length + 1
    ∧ (gossipSyncCycle none creditsMap geoFn rawPods
          (gossipSyncCycle none creditsMap geoFn rawPods st).1).1.networkStats.length
        = (gossipSyncCycle none creditsMap geoFn rawPods st).1.networkStats.length
          + 1 := by
  rw [gossipSyncCycle_none_eq creditsMap geoFn rawPods st hne]
  rw [gossipSyncCycle_none_eq creditsMap geoFn rawPods _ hne]
  refine ⟨?_, ?_, ?_, ?_, ?_⟩
  · intro ip
    rw [lookup_upsertAll, lookup_upsertAll, lookup_markAllInactive,
      lookup_markAllInactive, lookup_upsertAll, lookup_markAllInactive]
    exact upsertResultAt_idem (preprocess creditsMap geoFn rawPods).1 ip
      (dbLookup st.nodes ip)
  · simp
  · simp [Nat.add_assoc]
  · simp
  · simp

theorem gossip_sync_idempotent_witness :
    c1Pods ≠ ([] : List RawPod)
    ∧ ((∀ ip, dbLookup (gossipSyncCycle none (fun _ => none) c1Geo c1Pods
            (gossipSyncCycle none (fun _ => none) c1Geo c1Pods c1Store).1).1.nodes ip
          = dbLookup (gossipSyncCycle none (fun _ => none) c1Geo c1Pods c1Store).1.nodes ip)
      ∧ (gossipSyncCycle none (fun _ => none) c1Geo c1Pods c1Store).1.snapshots.length
          = c1Store.snapshots.length + (preprocess (fun _ => none) c1Geo c1Pods).1.length
      ∧ (gossipSyncCycle none (fun _ => none) c1Geo c1Pods
            (gossipSyncCycle none (fun _ => none) c1Geo c1Pods c1Store).1).1.snapshots.length
          = (gossipSyncCycle none (fun _ => none) c1Geo c1Pods c1Store).1.snapshots.length
            + (preprocess (fun _ => none) c1Geo c1Pods).1.length
      ∧ (gossipSyncCycle none (fun _ => none) c1Geo c1Pods c1Store).1.networkStats.length
          = c1Store.networkStats.length + 1
      ∧ (gossipSyncCycle none (fun _ => none) c1Geo c1Pods
            (gossipSyncCycle none (fun _ => none) c1Geo c1Pods c1Store).1).1.networkStats.length
          = (gossipSyncCycle none (fun _ => none) c1Geo c1Pods c1Store).1.networkStats.length
            + 1) :=
  ⟨by decide,
   gossip_sync_idempotent (fun _ => none) c1Geo c1Pods c1Store (by decide)⟩

/-! ## getStats (lib/xandeum-client.ts) -/

/-- The record `getStats` returns on success. -/
structure StatsRec where
  cpuPercent : ℚ
  ramPercent : ℚ
  ramUsed : ℚ
  ramTotal : ℚ
  uptime : ℚ
  fileSize : ℚ
  activeStreams : ℚ
  packetsReceived : ℚ
  packetsSent : ℚ
deriving Repr, DecidableEq

/-- The raw `result` object of a `get-stats` response; each numeric field may
be absent. -/
structure RawStats where
  cpu_percent : Option ℚ
  ram_used : Option ℚ
  ram_total : Option ℚ
  uptime : Option ℚ
  file_size : Option ℚ
  active_streams : Option ℚ
  packets_received : Option ℚ
  packets_sent : Option ℚ
deriving Repr, DecidableEq

/-- Outcome of the HTTP/RPC exchange inside `getStats`:
`throws` covers a timeout, a transport failure or any other exception from
the HTTP client (all caught by the surrounding try);
`noResult` covers a response without a truthy `result` field (this includes
JSON-RPC error envelopes, which carry `error` but no `result`);
`result` is a response with a `result` object. -/
inductive StatsExchange
  | throws
  | noResult
  | result (r : RawStats)
deriving Repr, DecidableEq

/-- `getStats` from lib/xandeum-client.ts: total on every exchange outcome
(the JS function catches every exception and returns null), with absent
numeric fields defaulted to 0 and
`ramPercent = ram_used/ram_total*100` guarded by `ram_total > 0`. -/
def getStats : StatsExchange → Option StatsRec
  | StatsExchange.throws => none
  | StatsExchange.noResult => none
  | StatsExchange.result r =>
    some { cpuPercent := r.cpu_percent.getD 0
           ramPercent := if r.ram_total.getD 0 > 0
             then r.ram_used.getD 0 / r.ram_total.getD 0 * 100 else 0
           ramUsed := r.ram_used.getD 0
           ramTotal := r.ram_total.getD 0
           uptime := r.uptime.getD 0
           fileSize := r.file_size.getD 0
           activeStreams := r.active_streams.getD 0
           packetsReceived := r.packets_received.getD 0
           packetsSent := r.packets_sent.getD 0 }

/-! ## Stats updater (app/api/cron/stats-updater/route.ts)

The per-node loop: `getStats` never throws (see `getStats`), so the
per-node catch block fires when the database update for that node throws.
The three observable situations per node are modelled as an outcome,
assigned per endpoint (i.e. per node IP). -/

/-- Per-node outcome of one stats-updater iteration:
`throws` = the per-node work raised an exception (caught by the per-node
catch block); `noStats` = `getStats` returned null; `stats` = a populated
stats record. -/
inductive PerNodeOutcome
  | throws (msg : String)
  | noStats
  | stats (s : StatsRec)
deriving Repr, DecidableEq

/-- `stats.fileSize ? stats.fileSize / (1024 ** 3) : 0` (bytes to GB). -/
def storageGB (fileSize : ℚ) : ℚ :=
  if fileSize = 0 then 0 else fileSize / (1024 : ℚ) ^ 3

/-- The `db.node.update` payload of the active branch: stats-owned fields
plus storage/uptime/status. -/
def applyStats (s : StatsRec) (r : NodeRow) : NodeRow :=
  { r with status := "active", cpuPercent := s.cpuPercent,
           ramUsage := s.ramPercent, ramUsed := s.ramUsed,
           ramTotal := s.ramTotal, activeStreams := s.activeStreams,
           packetsReceived := s.packetsReceived, packetsSent := s.packetsSent,
           uptime := s.uptime, storage := storageGB s.fileSize }

/-- The zero-valued snapshot pushed for a node with no stats response. -/
def zeroSnapshot (ip : String) (credits : ℚ) : SnapshotRow :=
  { nodeIp := ip, credits := credits, storage := 0, uptime := 0,
    status := "inactive", cpuPercent := 0, ramUsage := 0, ramUsed := 0,
    ramTotal := 0, activeStreams := 0, packetsReceived := 0, packetsSent := 0 }

/-- The populated snapshot pushed for a node with a stats response. -/
def activeSnapshot (ip : String) (credits : ℚ) (s : StatsRec) : SnapshotRow :=
  { nodeIp := ip, credits := credits, storage := storageGB s.fileSize,
    uptime := s.uptime, status := "active", cpuPercent := s.cpuPercent,
    ramUsage := s.ramPercent, ramUsed := s.ramUsed, ramTotal := s.ramTotal,
    activeStreams := s.activeStreams, packetsReceived := s.packetsReceived,
    packetsSent := s.packetsSent }

/-- The per-node loop of the stats updater over the task list selected
up-front, threading the node table and collecting, in order, the snapshots
to bulk-insert, the response `errors` entries, and the error-log writes. -/
def runStatsNodes (outcome : String → PerNodeOutcome) :
    List NodeRow → NodeDB →
      NodeDB × List SnapshotRow × List ErrEntry × List ErrorLogRow
  | [], db => (db, [], [], [])
  | task :: rest, db =>
    match outcome task.ip with
    | PerNodeOutcome.throws msg =>
      let out := runStatsNodes outcome rest db
      (out.1, out.2.1,
       { node := task.ip, error := msg, phase := "stats-update" } :: out.2.2.1,
       { source := "cron/stats-updater", phase := "stats-update",
         nodeId := some task.ip, error := msg } :: out.2.2.2)
    | PerNodeOutcome.noStats =>
      let out := runStatsNodes outcome rest (updateFirst task.ip setInactive db)
      (out.1, zeroSnapshot task.ip task.credits :: out.2.1, out.2.2.1, out.2.2.2)
    | PerNodeOutcome.stats s =>
      let out := runStatsNodes outcome rest (updateFirst task.ip (applyStats s) db)
      (out.1, activeSnapshot task.ip task.credits s :: out.2.1, out.2.2.1,
       out.2.2.2)

/-- The stats-updater POST handler on a non-empty node table: select all
nodes, run the per-node loop, then bulk-insert the collected snapshots and
append the error-log writes.  Returns the updated store and the response
`errors` array. -/
def runStatsUpdater (outcome : String → PerNodeOutcome) (st : Store) :
    Store × List ErrEntry :=
  let out := runStatsNodes outcome st.nodes st.nodes
  ({ st with nodes := out.1, snapshots := st.snapshots ++ out.2.1,
             errorLog := st.errorLog ++ out.2.2.2 },
   out.2.2.1)

theorem applyStats_ip (s : StatsRec) (r : NodeRow) :
    (applyStats s r).ip = r.ip := rfl

theorem setInactive_ip (r : NodeRow) : (setInactive r).ip = r.ip := rfl

/-- A node whose outcome is an exception is never updated: the per-node
catch block runs after the failed write, and no other task touches its key. -/
theorem runStatsNodes_lookup_throws (outcome : String → PerNodeOutcome)
    (i : String) (msg : String) (h : outcome i = PerNodeOutcome.throws msg) :
    ∀ (tasks : List NodeRow) (db : NodeDB),
      dbLookup (runStatsNodes outcome tasks db).1 i = dbLookup db i := by
  intro tasks
  induction tasks with
  | nil => intro db; rfl
  | cons task rest ih =>
    intro db
    have hne : outcome task.ip ≠ PerNodeOutcome.throws msg → task.ip ≠ i := by
      intro hcontra heq
      rw [heq] at hcontra
      exact hcontra h
    cases ho : outcome task.ip with
    | throws m => simpa [runStatsNodes, ho] using ih db
    | noStats =>
      have hip : task.ip ≠ i := hne (by rw [ho]; intro hx; cases hx)
      have : dbLookup (updateFirst task.ip setInactive db) i = dbLookup db i :=
        lookup_updateFirst_ne setInactive setInactive_ip task.ip i
          (fun hx => hip hx.symm) db
      simpa [runStatsNodes, ho, this] using
        ih (updateFirst task.ip setInactive db)
    | stats s =>
      have hip : task.ip ≠ i := hne (by rw [ho]; intro hx; cases hx)
      have : dbLookup (updateFirst task.ip (applyStats s) db) i = dbLookup db i :=
        lookup_updateFirst_ne (applyStats s) (applyStats_ip s) task.ip i
          (fun hx => hip hx.symm) db
      simpa [runStatsNodes, ho, this] using
        ih (updateFirst task.ip (applyStats s) db)

/-- A node whose outcome is an exception gets no snapshot in that cycle. -/
theorem runStatsNodes_snaps_throws (outcome : String → PerNodeOutcome)
    (i : String) (msg : String) (h : outcome i = PerNodeOutcome.throws msg) :
    ∀ (tasks : List NodeRow) (db : NodeDB),
      ∀ s ∈ (runStatsNodes outcome tasks db).2.1, s.nodeIp ≠ i := by
  intro tasks
  induction tasks with
  | nil => intro db s hs; exact absurd hs (by simp [runStatsNodes])
  | cons task rest ih =>
    intro db s hs
    have hne : outcome task.ip ≠ PerNodeOutcome.throws msg → task.ip ≠ i := by
      intro hcontra heq
      rw [heq] at hcontra
      exact hcontra h
    cases ho : outcome task.ip with
    | throws m =>
      rw [show (runStatsNodes outcome (task :: rest) db).2.1
            = (runStatsNodes outcome rest db).2.1 by
        simp [runStatsNodes, ho]] at hs
      exact ih db s hs
    | noStats =>
      have hip : task.ip ≠ i := hne (by rw [ho]; intro hx; cases hx)
      rw [show (runStatsNodes outcome (task :: rest) db).2.1
            = zeroSnapshot task.ip task.credits
              :: (runStatsNodes outcome rest
                    (updateFirst task.ip setInactive db)).2.1 by
        simp [runStatsNodes, ho]] at hs
      rcases List.mem_cons.mp hs with h1 | h2
      · rw [h1]; exact hip
      · exact ih (updateFirst task.ip setInactive db) s h2
    | stats s2 =>
      have hip : task.ip ≠ i := hne (by rw [ho]; intro hx; cases hx)
      rw [show (runStatsNodes outcome (task :: rest) db).2.1
            = activeSnapshot task.ip task.credits s2
              :: (runStatsNodes outcome rest
                    (updateFirst task.ip (applyStats s2) db)).2.1 by
        simp [runStatsNodes, ho]] at hs
      rcases List.mem_cons.mp hs with h1 | h2
      · rw [h1]; exact hip
      · exact ih (updateFirst task.ip (applyStats s2) db) s h2

/-- The failure of a throwing node is pushed onto the response errors. -/
theorem runStatsNodes_err_mem (outcome : String → PerNodeOutcome)
    (i : String) (msg : String) (h : outcome i = PerNodeOutcome.throws msg) :
    ∀ (tasks : List NodeRow) (db : NodeDB) (task : NodeRow),
      task ∈ tasks → task.ip = i →
      ({ node := i, error := msg, phase := "stats-update" } : ErrEntry)
        ∈ (runStatsNodes outcome tasks db).2.2.1 := by
  intro tasks
  induction tasks with
  | nil => intro db task hmem; exact absurd hmem (by simp)
  | cons t0 rest ih =>
    intro db task hmem hip
    rcases List.mem_cons.mp hmem with h1 | h2
    · subst h1
      have ho : outcome task.ip = PerNodeOutcome.throws msg := by
        rw [hip]; exact h
      rw [show (runStatsNodes outcome (task :: rest) db).2.2.1
            = { node := task.ip, error := msg, phase := "stats-update" }
              :: (runStatsNodes outcome rest db).2.2.1 by
        simp [runStatsNodes, ho]]
      rw [hip]
      exact List.mem_cons_self _ _
    · cases ho : outcome t0.ip with
      | throws m =>
        rw [show (runStatsNodes outcome (t0 :: rest) db).2.2.1
              = { node := t0.ip, error := m, phase := "stats-update" }
                :: (runStatsNodes outcome rest db).2.2.1 by
          simp [runStatsNodes, ho]]
        exact List.mem_cons_of_mem _ (ih db task h2 hip)
      | noStats =>
        simpa [runStatsNodes, ho] using
          ih (updateFirst t0.ip setInactive db) task h2 hip
      | stats s =>
        simpa [runStatsNodes, ho] using
          ih (updateFirst t0.ip (applyStats s) db) task h2 hip

/-- The failure of a throwing node is written to the durable error log. -/
theorem runStatsNodes_errlog_mem (outcome : String → PerNodeOutcome)
    (i : String) (msg : String) (h : outcome i = PerNodeOutcome.throws msg) :
    ∀ (tasks : List NodeRow) (db : NodeDB) (task : NodeRow),
      task ∈ tasks → task.ip = i →
      ({ source := "cron/stats-updater", phase := "stats-update",
         nodeId := some i, error := msg } : ErrorLogRow)
        ∈ (runStatsNodes outcome tasks db).2.2.2 := by
  intro tasks
  induction tasks with
  | nil => intro db task hmem; exact absurd hmem (by simp)
  | cons t0 rest ih =>
    intro db task hmem hip
    rcases List.mem_cons.mp hmem with h1 | h2
    · subst h1
      have ho : outcome task.ip = PerNodeOutcome.throws msg := by
        rw [hip]; exact h
      rw [show (runStatsNodes outcome (task :: rest) db).2.2.2
            = { source := "cron/stats-updater", phase := "stats-update",
                nodeId := some task.ip, error := msg }
              :: (runStatsNodes outcome rest db).2.2.2 by
        simp [runStatsNodes, ho]]
      rw [hip]
      exact List.mem_cons_self _ _
    · cases ho : outcome t0.ip with
      | throws m =>
        rw [show (runStatsNodes outcome (t0 :: rest) db).2.2.2
              = { source := "cron/stats-updater", phase := "stats-update",
                  nodeId := some t0.ip, error := m }
                :: (runStatsNodes outcome rest db).2.2.2 by
          simp [runStatsNodes, ho]]
        exact List.mem_cons_of_mem _ (ih db task h2 hip)
      | noStats =>
        simpa [runStatsNodes, ho] using
          ih (updateFirst t0.ip setInactive db) task h2 hip
      | stats s =>
        simpa [runStatsNodes, ho] using
          ih (updateFirst t0.ip (applyStats s) db) task h2 hip

/-- The node-table effect of one per-node iteration, factored out of
`runStatsNodes` for the proofs. -/
def stepDb (o : PerNodeOutcome) (k : String) (db : NodeDB) : NodeDB :=
  match o with
  | PerNodeOutcome.throws _ => db
  | PerNodeOutcome.noStats => updateFirst k setInactive db
  | PerNodeOutcome.stats s => updateFirst k (applyStats s) db

/-- The snapshot pushed by one per-node iteration, factored out of
`runStatsNodes` for the proofs. -/
def stepSnap (o : PerNodeOutcome) (k : String) (c : ℚ) : List SnapshotRow :=
  match o with
  | PerNodeOutcome.throws _ => []
  | PerNodeOutcome.noStats => [zeroSnapshot k c]
  | PerNodeOutcome.stats s => [activeSnapshot k c s]

theorem runStatsNodes_fst_cons (o : String → PerNodeOutcome) (task : NodeRow)
    (rest : List NodeRow) (db : NodeDB) :
    (runStatsNodes o (task :: rest) db).1
      = (runStatsNodes o rest (stepDb (o task.ip) task.ip db)).1 := by
  cases ho : o task.ip <;> simp [runStatsNodes, stepDb, ho]

theorem runStatsNodes_snd_cons (o : String → PerNodeOutcome) (task : NodeRow)
    (rest : List NodeRow) (db : NodeDB) :
    (runStatsNodes o (task :: rest) db).2.1
      = stepSnap (o task.ip) task.ip task.credits
        ++ (runStatsNodes o rest (stepDb (o task.ip) task.ip db)).2.1 := by
  cases ho : o task.ip <;> simp [runStatsNodes, stepDb, stepSnap, ho]

theorem lookup_stepDb_ne (o : PerNodeOutcome) (k j : String) (db : NodeDB)
    (hj : j ≠ k) : dbLookup (stepDb o k db) j = dbLookup db j := by
  cases o with
  | throws m => rfl
  | noStats => exact lookup_updateFirst_ne setInactive setInactive_ip k j hj db
  | stats s => exact lookup_updateFirst_ne (applyStats s) (applyStats_ip s) k j hj db

theorem lookup_stepDb_self (o : PerNodeOutcome) (k : String) (db : NodeDB) :
    dbLookup (stepDb o k db) k
      = match o with
        | PerNodeOutcome.throws _ => dbLookup db k
        | PerNodeOutcome.noStats => (dbLookup db k).map setInactive
        | PerNodeOutcome.stats s => (dbLookup db k).map (applyStats s) := by
  cases o with
  | throws m => rfl
  | noStats => exact lookup_updateFirst_self setInactive setInactive_ip k db
  | stats s => exact lookup_updateFirst_self (applyStats s) (applyStats_ip s) k db

theorem stepSnap_filter_ne (o : PerNodeOutcome) (k : String) (c : ℚ)
    (j : String) (hj : (k == j) = false) :
    (stepSnap o k c).filter (fun s => s.nodeIp == j) = [] := by
  cases o with
  | throws m => rfl
  | noStats => simp [stepSnap, zeroSnapshot, hj]
  | stats s => simp [stepSnap, activeSnapshot, hj]

/-- Noninterference of the stats updater: two runs whose per-node outcomes
agree on every node except `i`, started from node tables that agree off `i`,
produce node tables and snapshot streams that agree off `i`. -/
theorem runStatsNodes_frame (o1 o2 : String → PerNodeOutcome) (i : String)
    (hagree : ∀ j, j ≠ i → o1 j = o2 j) :
    ∀ (tasks : List NodeRow) (db1 db2 : NodeDB),
      (∀ j, j ≠ i → dbLookup db1 j = dbLookup db2 j) →
      ∀ j, j ≠ i →
        dbLookup (runStatsNodes o1 tasks db1).1 j
            = dbLookup (runStatsNodes o2 tasks db2).1 j
        ∧ (runStatsNodes o1 tasks db1).2.1.filter (fun s => s.nodeIp == j)
            = (runStatsNodes o2 tasks db2).2.1.filter (fun s => s.nodeIp == j) := by
  intro tasks
  induction tasks with
  | nil => intro db1 db2 hdb j hj; exact ⟨hdb j hj, rfl⟩
  | cons task rest ih =>
    intro db1 db2 hdb j hj
    by_cases hip : task.ip = i
    · have hdb2 : ∀ j2, j2 ≠ i →
          dbLookup (stepDb (o1 task.ip) task.ip db1) j2
            = dbLookup (stepDb (o2 task.ip) task.ip db2) j2 := by
        intro j2 hj2
        rw [lookup_stepDb_ne (o1 task.ip) task.ip j2 db1 (by rw [hip]; exact hj2),
          lookup_stepDb_ne (o2 task.ip) task.ip j2 db2 (by rw [hip]; exact hj2)]
        exact hdb j2 hj2
      have hk : (task.ip == j) = false := by
        rw [hip]
        exact beq_eq_false_iff_ne.mpr fun hx => hj hx.symm
      constructor
      · rw [runStatsNodes_fst_cons, runStatsNodes_fst_cons]
        exact (ih _ _ hdb2 j hj).1
      · rw [runStatsNodes_snd_cons, runStatsNodes_snd_cons,
          List.filter_append, List.filter_append,
          stepSnap_filter_ne _ _ _ j hk, stepSnap_filter_ne _ _ _ j hk]
        simpa using (ih _ _ hdb2 j hj).2
    · have hoeq : o1 task.ip = o2 task.ip := hagree task.ip hip
      have hdb2 : ∀ j2, j2 ≠ i →
          dbLookup (stepDb (o1 task.ip) task.ip db1) j2
            = dbLookup (stepDb (o2 task.ip) task.ip db2) j2 := by
        intro j2 hj2
        by_cases hjk : j2 = task.ip
        · subst hjk
          rw [lookup_stepDb_self, lookup_stepDb_self, ← hoeq,
            hdb task.ip hj2]
        · rw [lookup_stepDb_ne (o1 task.ip) task.ip j2 db1 hjk,
            lookup_stepDb_ne (o2 task.ip) task.ip j2 db2 hjk]
          exact hdb j2 hj2
      constructor
      · rw [runStatsNodes_fst_cons, runStatsNodes_fst_cons, hoeq]
        exact (ih _ _ (by rw [← hoeq] at *; exact hdb2) j hj).1
      · rw [runStatsNodes_snd_cons, runStatsNodes_snd_cons,
          List.filter_append, List.filter_append, hoeq]
        have := (ih (stepDb (o2 task.ip) task.ip db1)
          (stepDb (o2 task.ip) task.ip db2) (by rw [← hoeq] at *; exact hdb2) j hj).2
        rw [this]

/-- A node whose stats come back empty contributes its zero-valued snapshot. -/
theorem runStatsNodes_zero_snap (outcome : String → PerNodeOutcome)
    (i : String) (h : outcome i = PerNodeOutcome.noStats) :
    ∀ (tasks : List NodeRow) (db : NodeDB) (task : NodeRow),
      task ∈ tasks → task.ip = i →
      zeroSnapshot i task.credits ∈ (runStatsNodes outcome tasks db).2.1 := by
  intro tasks
  induction tasks with
  | nil => intro db task hmem; exact absurd hmem (by simp)
  | cons t0 rest ih =>
    intro db task hmem hip
    rw [runStatsNodes_snd_cons]
    rcases List.mem_cons.mp hmem with h1 | h2
    · subst h1
      have ho : outcome task.ip = PerNodeOutcome.noStats := by rw [hip]; exact h
      rw [ho]
      apply List.mem_append_left
      rw [hip]
      exact List.mem_singleton.mpr rfl
    · exact List.mem_append_right _ (ih _ task h2 hip)

/-- Once the row at a no-stats key is inactive, it stays inactive for the
rest of the cycle. -/
theorem runStatsNodes_inactive_stay (outcome : String → PerNodeOutcome)
    (i : String) (h : outcome i = PerNodeOutcome.noStats) :
    ∀ (tasks : List NodeRow) (db : NodeDB) (r0 : NodeRow),
      dbLookup db i = some r0 → r0.status = "inactive" →
      ∃ r2, dbLookup (runStatsNodes outcome tasks db).1 i = some r2
        ∧ r2.status = "inactive" := by
  intro tasks
  induction tasks with
  | nil => intro db r0 h0 hs; exact ⟨r0, h0, hs⟩
  | cons task rest ih =>
    intro db r0 h0 hs
    rw [runStatsNodes_fst_cons]
    by_cases hip : task.ip = i
    · have ho : outcome task.ip = PerNodeOutcome.noStats := by rw [hip]; exact h
      rw [ho]
      apply ih _ (setInactive r0)
      · show dbLookup (updateFirst task.ip setInactive db) i = some (setInactive r0)
        rw [hip, lookup_updateFirst_self setInactive setInactive_ip i db, h0]
        rfl
      · rfl
    · apply ih _ r0 _ hs
      rw [lookup_stepDb_ne (outcome task.ip) task.ip i db fun hx => hip hx.symm]
      exact h0

/-- If some task carries key `i` and that key resolves to no stats, the row
at `i` ends the cycle with status inactive. -/
theorem runStatsNodes_inactive (outcome : String → PerNodeOutcome)
    (i : String) (h : outcome i = PerNodeOutcome.noStats) :
    ∀ (tasks : List NodeRow) (db : NodeDB),
      (∃ t ∈ tasks, t.ip = i) → (∃ r0, dbLookup db i = some r0) →
      ∃ r2, dbLookup (runStatsNodes outcome tasks db).1 i = some r2
        ∧ r2.status = "inactive" := by
  intro tasks
  induction tasks with
  | nil =>
    rintro db ⟨t, ht, _⟩ _
    exact absurd ht (by simp)
  | cons task rest ih =>
    rintro db ⟨t, ht, htip⟩ ⟨r0, h0⟩
    rw [runStatsNodes_fst_cons]
    by_cases hip : task.ip = i
    · have ho : outcome task.ip = PerNodeOutcome.noStats := by rw [hip]; exact h
      rw [ho]
      apply runStatsNodes_inactive_stay outcome i h rest _ (setInactive r0) _ rfl
      show dbLookup (updateFirst task.ip setInactive db) i = some (setInactive r0)
      rw [hip, lookup_updateFirst_self setInactive setInactive_ip i db, h0]
      rfl
    · have ht2 : t ∈ rest := by
        rcases List.mem_cons.mp ht with h1 | h2
        · exact absurd (by rw [← h1]; exact htip) hip
        · exact h2
      apply ih _ ⟨t, ht2, htip⟩
      refine ⟨r0, ?_⟩
      rw [lookup_stepDb_ne (outcome task.ip) task.ip i db fun hx => hip hx.symm]
      exact h0

/-- Claim C6: during a stats-updater cycle, a node whose per-node work
raises an exception (as opposed to the stats call merely returning null)
keeps its stored row (hence its status) unchanged, gets no NodeSnapshot
appended in that cycle, and has the failure recorded both in the response
errors and the durable error log; and the processing of every other node is
unaffected: the final row and the snapshot stream of any other node are
the same as in a run where node `i` had any other outcome. -/
theorem stats_updater_throw_frame (outcome : String → PerNodeOutcome)
    (st : Store) (i : String) (msg : String) (r : NodeRow)
    (hthrow : outcome i = PerNodeOutcome.throws msg)
    (hrow : dbLookup st.nodes i = some r) :
    dbLookup (runStatsUpdater outcome st).1.nodes i = some r
    ∧ (∀ s ∈ (runStatsUpdater outcome st).1.snapshots,
        s.nodeIp = i → s ∈ st.snapshots)
    ∧ ({ node := i, error := msg, phase := "stats-update" } : ErrEntry)
        ∈ (runStatsUpdater outcome st).2
    ∧ ({ source := "cron/stats-updater", phase := "stats-update",
         nodeId := some i, error := msg } : ErrorLogRow)
        ∈ (runStatsUpdater outcome st).1.errorLog
    ∧ (∀ o2 : String → PerNodeOutcome, (∀ j, j ≠ i → o2 j = outcome j) →
        ∀ j, j ≠ i →
          dbLookup (runStatsUpdater o2 st).1.nodes j
              = dbLookup (runStatsUpdater outcome st).1.nodes j
          ∧ (runStatsUpdater o2 st).1.snapshots.filter (fun s => s.nodeIp == j)
              = (runStatsUpdater outcome st).1.snapshots.filter
                  (fun s => s.nodeIp == j)) := by
  have hmem : r ∈ st.nodes := List.mem_of_find?_eq_some hrow
  have hrip : r.ip = i := by simpa using List.find?_some hrow
  refine ⟨?_, ?_, ?_, ?_, ?_⟩
  · show dbLookup (runStatsNodes outcome st.nodes st.nodes).1 i = some r
    rw [runStatsNodes_lookup_throws outcome i msg hthrow st.nodes st.nodes]
    exact hrow
  · intro s hs hsi
    rcases List.mem_append.mp hs with h1 | h2
    · exact h1
    · exact absurd hsi
        (runStatsNodes_snaps_throws outcome i msg hthrow st.nodes st.nodes s h2)
  · exact runStatsNodes_err_mem outcome i msg hthrow st.nodes st.nodes r hmem hrip
  · exact List.mem_append_right _
      (runStatsNodes_errlog_mem outcome i msg hthrow st.nodes st.nodes r hmem hrip)
  · intro o2 hagree j hj
    have hframe := runStatsNodes_frame o2 outcome i hagree st.nodes
      st.nodes st.nodes (fun _ _ => rfl) j hj
    refine ⟨hframe.1, ?_⟩
    show (st.snapshots ++ (runStatsNodes o2 st.nodes st.nodes).2.1).filter
        (fun s => s.nodeIp == j)
      = (st.snapshots ++ (runStatsNodes outcome st.nodes st.nodes).2.1).filter
        (fun s => s.nodeIp == j)
    rw [List.filter_append, List.filter_append, hframe.2]

def c6RowA : NodeRow :=
  { ip := "10.0.0.1", pubkey := some "pk1", version := "1.0", country := "US",
    lat := 1, lon := 2, credits := 3, storage := 4, uptime := 5,
    status := "active", cpuPercent := 6, ramUsage := 7, ramUsed := 8,
    ramTotal := 9, activeStreams := 10, packetsReceived := 11,
    packetsSent := 12, isPublic := true }

def c6RowB : NodeRow :=
  { ip := "9.9.9.9", pubkey := none, version := "1.0", country := "DE",
    lat := 0, lon := 0, credits := 1, storage := 2, uptime := 3,
    status := "active", cpuPercent := 0, ramUsage := 0, ramUsed := 0,
    ramTotal := 0, activeStreams := 0, packetsReceived := 0,
    packetsSent := 0, isPublic := false }

def c6Store : Store :=
  { nodes := [c6RowA, c6RowB], snapshots := [], networkStats := [],
    errorLog := [] }

/-- Outcome assignment for the stats-updater witnesses: the first node's
update throws, the second node's stats call returns null. -/
def c6Outcome : String → PerNodeOutcome := fun ip =>
  if ip == "10.0.0.1" then PerNodeOutcome.throws "boom"
  else PerNodeOutcome.noStats

theorem stats_updater_throw_frame_witness :
    c6Outcome "10.0.0.1" = PerNodeOutcome.throws "boom"
    ∧ dbLookup c6Store.nodes "10.0.0.1" = some c6RowA
    ∧ (dbLookup (runStatsUpdater c6Outcome c6Store).1.nodes "10.0.0.1" = some c6RowA
      ∧ (∀ s ∈ (runStatsUpdater c6Outcome c6Store).1.snapshots,
          s.nodeIp = "10.0.0.1" → s ∈ c6Store.snapshots)
      ∧ ({ node := "10.0.0.1", error := "boom", phase := "stats-update" } : ErrEntry)
          ∈ (runStatsUpdater c6Outcome c6Store).2
      ∧ ({ source := "cron/stats-updater", phase := "stats-update",
           nodeId := some "10.0.0.1", error := "boom" } : ErrorLogRow)
          ∈ (runStatsUpdater c6Outcome c6Store).1.errorLog
      ∧ (∀ o2 : String → PerNodeOutcome,
          (∀ j, j ≠ "10.0.0.1" → o2 j = c6Outcome j) →
          ∀ j, j ≠ "10.0.0.1" →
            dbLookup (runStatsUpdater o2 c6Store).1.nodes j
                = dbLookup (runStatsUpdater c6Outcome c6Store).1.nodes j
            ∧ (runStatsUpdater o2 c6Store).1.snapshots.filter
                  (fun s => s.nodeIp == j)
                = (runStatsUpdater c6Outcome c6Store).1.snapshots.filter
                    (fun s => s.nodeIp == j))) :=
  ⟨rfl, by decide,
   stats_updater_throw_frame c6Outcome c6Store "10.0.0.1" "boom" c6RowA rfl
     (by decide)⟩

/-- Claim C7: during a stats-updater cycle, a node whose stats call yields
no (or a malformed) response has its status updated to `inactive` and gets a
zero-valued NodeSnapshot (all metric fields zero) appended for it in that
cycle. -/
theorem stats_updater_nostats_zero_snapshot (outcome : String → PerNodeOutcome)
    (st : Store) (i : String) (r : NodeRow)
    (hns : outcome i = PerNodeOutcome.noStats)
    (hrow : dbLookup st.nodes i = some r) :
    (∃ r2, dbLookup (runStatsUpdater outcome st).1.nodes i = some r2
       ∧ r2.status = "inactive")
    ∧ ∃ s ∈ (runStatsUpdater outcome st).1.snapshots.drop st.snapshots.length,
        s.nodeIp = i ∧ s.status = "inactive" ∧ s.storage = 0 ∧ s.uptime = 0
        ∧ s.cpuPercent = 0 ∧ s.ramUsage = 0 ∧ s.ramUsed = 0 ∧ s.ramTotal = 0
        ∧ s.activeStreams = 0 ∧ s.packetsReceived = 0 ∧ s.packetsSent = 0 := by
  have hmem : r ∈ st.nodes := List.mem_of_find?_eq_some hrow
  have hrip : r.ip = i := by simpa using List.find?_some hrow
  constructor
  · exact runStatsNodes_inactive outcome i hns st.nodes st.nodes
      ⟨r, hmem, hrip⟩ ⟨r, hrow⟩
  · refine ⟨zeroSnapshot i r.credits, ?_, rfl, rfl, rfl, rfl, rfl, rfl, rfl,
      rfl, rfl, rfl, rfl⟩
    show zeroSnapshot i r.credits
      ∈ (st.snapshots ++ (runStatsNodes outcome st.nodes st.nodes).2.1).drop
          st.snapshots.length
    rw [List.drop_left]
    exact runStatsNodes_zero_snap outcome i hns st.nodes st.nodes r hmem hrip

theorem stats_updater_nostats_zero_snapshot_witness :
    c6Outcome "9.9.9.9" = PerNodeOutcome.noStats
    ∧ dbLookup c6Store.nodes "9.9.9.9" = some c6RowB
    ∧ ((∃ r2, dbLookup (runStatsUpdater c6Outcome c6Store).1.nodes "9.9.9.9"
          = some r2 ∧ r2.status = "inactive")
      ∧ ∃ s ∈ (runStatsUpdater c6Outcome c6Store).1.snapshots.drop
            c6Store.snapshots.length,
          s.nodeIp = "9.9.9.9" ∧ s.status = "inactive" ∧ s.storage = 0
          ∧ s.uptime = 0 ∧ s.cpuPercent = 0 ∧ s.ramUsage = 0 ∧ s.ramUsed = 0
          ∧ s.ramTotal = 0 ∧ s.activeStreams = 0 ∧ s.packetsReceived = 0
          ∧ s.packetsSent = 0) :=
  ⟨rfl, by decide,
   stats_updater_nostats_zero_snapshot c6Outcome c6Store "9.9.9.9" c6RowB rfl
     (by decide)⟩

/-- Claim C9: `getStats` is total over every outcome of the underlying
HTTP/RPC exchange — a thrown transport/timeout error or a missing result
field yields `null`, and a present result yields a fully populated record
whose absent numeric fields default to 0 (including `ramPercent`, which is 0
whenever `ram_total` is absent). -/
theorem getStats_total_or_defaults (x : StatsExchange) :
    (x = StatsExchange.throws → getStats x = none)
    ∧ (x = StatsExchange.noResult → getStats x = none)
    ∧ (∀ r, x = StatsExchange.result r →
        ∃ rec, getStats x = some rec
          ∧ (r.cpu_percent = none → rec.cpuPercent = 0)
          ∧ (r.ram_used = none → rec.ramUsed = 0)
          ∧ (r.ram_total = none → rec.ramTotal = 0)
          ∧ (r.ram_total = none → rec.ramPercent = 0)
          ∧ (r.uptime = none → rec.uptime = 0)
          ∧ (r.file_size = none → rec.fileSize = 0)
          ∧ (r.active_streams = none → rec.activeStreams = 0)
          ∧ (r.packets_received = none → rec.packetsReceived = 0)
          ∧ (r.packets_sent = none → rec.packetsSent = 0)) := by
  refine ⟨fun h => by rw [h]; rfl, fun h => by rw [h]; rfl, ?_⟩
  intro r h
  subst h
  refine ⟨_, rfl, ?_, ?_, ?_, ?_, ?_, ?_, ?_, ?_, ?_⟩
  all_goals intro h0
  all_goals simp [getStats, h0]

def c9Raw : RawStats :=
  { cpu_percent := none, ram_used := none, ram_total := none, uptime := none,
    file_size := none, active_streams := none, packets_received := none,
    packets_sent := none }

theorem getStats_total_or_defaults_witness :
    (StatsExchange.result c9Raw = StatsExchange.throws →
      getStats (StatsExchange.result c9Raw) = none)
    ∧ (StatsExchange.result c9Raw = StatsExchange.noResult →
      getStats (StatsExchange.result c9Raw) = none)
    ∧ (∀ r, StatsExchange.result c9Raw = StatsExchange.result r →
        ∃ rec, getStats (StatsExchange.result c9Raw) = some rec
          ∧ (r.cpu_percent = none → rec.cpuPercent = 0)
          ∧ (r.ram_used = none → rec.ramUsed = 0)
          ∧ (r.ram_total = none → rec.ramTotal = 0)
          ∧ (r.ram_total = none → rec.ramPercent = 0)
          ∧ (r.uptime = none → rec.uptime = 0)
          ∧ (r.file_size = none → rec.fileSize = 0)
          ∧ (r.active_streams = none → rec.activeStreams = 0)
          ∧ (r.packets_received = none → rec.packetsReceived = 0)
          ∧ (r.packets_sent = none → rec.packetsSent = 0)) :=
  getStats_total_or_defaults (StatsExchange.result c9Raw)

/-! ## RPC fallback iteration (fetchGossipDataWithFallback,
app/api/cron/gossip-sync/route.ts) -/

/-- Shape of a `get-pods-with-stats` result: object with array field `pods`,
object with array field `list`, bare array, or anything else. -/
inductive RpcShape
  | withPods (pods : List RawPod)
  | withList (l : List RawPod)
  | bare (l : List RawPod)
  | malformed
deriving Repr, DecidableEq

/-- What one candidate endpoint does: the call throws (timeout, transport or
RPC error), or it returns a payload of some shape. -/
inductive CandidateOutcome
  | fails (msg : String)
  | returns (shape : RpcShape)
deriving Repr, DecidableEq

/-- The structural validity check of the fallback loop. -/
def decodeShape : RpcShape → Option (List RawPod)
  | RpcShape.withPods l => some l
  | RpcShape.withList l => some l
  | RpcShape.bare l => some l
  | RpcShape.malformed => none

def outcomePods : CandidateOutcome → Option (List RawPod)
  | CandidateOutcome.fails _ => none
  | CandidateOutcome.returns shape => decodeShape shape

/-- The error string recorded for a candidate that does not produce a valid
payload: the thrown message, or the invalid-structure message. -/
def candidateError (node : String) : CandidateOutcome → String
  | CandidateOutcome.fails msg => node ++ ": " ++ msg
  | CandidateOutcome.returns _ => node ++ ": Invalid response structure"

/-- `fetchGossipDataWithFallback`: try the candidates in order; return the
first structurally valid payload together with the errors recorded so far
(one per failed candidate, none for the succeeding one); if all candidates
are exhausted, fail with the aggregate error list. -/
def fetchGossipDataWithFallback :
    List (String × CandidateOutcome) → List String →
      Except (List String) (List RawPod × List String)
  | [], errs => Except.error errs
  | (node, o) :: rest, errs =>
    match outcomePods o with
    | some pods => Except.ok (pods, errs)
    | none => fetchGossipDataWithFallback rest (errs ++ [candidateError node o])

/-- Claim C4: when the first two candidates fail or return a structurally
invalid payload and the third returns a structurally valid payload, the
pipeline uses the third candidate's payload and has recorded exactly two
errors — one per failed candidate, none for the succeeding one. -/
theorem fallback_third_valid (n1 n2 n3 : String) (o1 o2 o3 : CandidateOutcome)
    (pods : List RawPod)
    (h1 : outcomePods o1 = none) (h2 : outcomePods o2 = none)
    (h3 : outcomePods o3 = some pods) :
    fetchGossipDataWithFallback [(n1, o1), (n2, o2), (n3, o3)] []
      = Except.ok (pods, [candidateError n1 o1, candidateError n2 o2])
    ∧ [candidateError n1 o1, candidateError n2 o2].length = 2 := by
  constructor
  · rw [fetchGossipDataWithFallback, h1, fetchGossipDataWithFallback, h2,
      fetchGossipDataWithFallback, h3]
    rfl
  · rfl

theorem fallback_third_valid_witness :
    outcomePods (CandidateOutcome.fails "timeout of 10000ms exceeded") = none
    ∧ outcomePods (CandidateOutcome.returns RpcShape.malformed) = none
    ∧ outcomePods (CandidateOutcome.returns (RpcShape.withList c1Pods))
        = some c1Pods
    ∧ (fetchGossipDataWithFallback
          [("http://216.234.134.5:6000/rpc",
            CandidateOutcome.fails "timeout of 10000ms exceeded"),
           ("http://173.212.207.32:6000/rpc",
            CandidateOutcome.returns RpcShape.malformed),
           ("http://161.97.185.116:6000/rpc",
            CandidateOutcome.returns (RpcShape.withList c1Pods))] []
        = Except.ok (c1Pods,
            [candidateError "http://216.234.134.5:6000/rpc"
              (CandidateOutcome.fails "timeout of 10000ms exceeded"),
             candidateError "http://173.212.207.32:6000/rpc"
              (CandidateOutcome.returns RpcShape.malformed)])
      ∧ [candidateError "http://216.234.134.5:6000/rpc"
          (CandidateOutcome.fails "timeout of 10000ms exceeded"),
         candidateError "http://173.212.207.32:6000/rpc"
          (CandidateOutcome.returns RpcShape.malformed)].length = 2) :=
  ⟨rfl, rfl, rfl,
   fallback_third_valid "http://216.234.134.5:6000/rpc"
     "http://173.212.207.32:6000/rpc" "http://161.97.185.116:6000/rpc"
     (CandidateOutcome.fails "timeout of 10000ms exceeded")
     (CandidateOutcome.returns RpcShape.malformed)
     (CandidateOutcome.returns (RpcShape.withList c1Pods)) c1Pods rfl rfl rfl⟩

/-! ## Geo resolver (resolveGeoLocation, lib/xandeum-client.ts) -/

structure GeoCacheRow where
  ip : String
  country : String
  lat : ℚ
  lon : ℚ
deriving Repr, DecidableEq

/-- Outcome of the geo-IP HTTP lookup: the fetch (or JSON parse) throws, or
a response arrives with a `status` string and payload fields. -/
inductive GeoApiOutcome
  | fails
  | response (status : String) (country : String) (lat lon : ℚ)
deriving Repr, DecidableEq

def geoLookupCache (cache : List GeoCacheRow) (ip : String) :
    Option GeoCacheRow :=
  cache.find? (fun e => e.ip == ip)

/-- `resolveGeoLocation`: check the durable cache first (zero HTTP calls on
a hit); on a miss perform one lookup; persist and return the triple on
`status == "success"`; on any failure or non-success status return the
sentinel without caching it.  Result: the returned triple, the new cache
table, and the number of outbound HTTP calls made. -/
def resolveGeoLocation (cache : List GeoCacheRow) (ip : String)
    (api : GeoApiOutcome) : Geo × List GeoCacheRow × Nat :=
  match geoLookupCache cache ip with
  | some e => ({ country := e.country, lat := e.lat, lon := e.lon }, cache, 0)
  | none =>
    match api with
    | GeoApiOutcome.response st c la lo =>
      if st = "success" then
        ({ country := c, lat := la, lon := lo },
         cache ++ [{ ip := ip, country := c, lat := la, lon := lo }], 1)
      else ({ country := "Unknown", lat := 0, lon := 0 }, cache, 1)
    | GeoApiOutcome.fails => ({ country := "Unknown", lat := 0, lon := 0 }, cache, 1)

/-- Non-success outcomes of the geo lookup: a thrown fetch/parse error or a
response whose status is not `"success"`. -/
def geoFailed : GeoApiOutcome → Bool
  | GeoApiOutcome.fails => true
  | GeoApiOutcome.response st _ _ _ => !(st == "success")

/-- Claim C8: for an IP already in the durable geo cache,
`resolveGeoLocation` makes zero outbound HTTP calls and returns the cached
triple with the cache unchanged; for an IP not in the cache whose lookup
fails or returns a non-success status, it returns the sentinel
`{country := "Unknown", lat := 0, lon := 0}` without writing to the cache,
so a later call for the same IP performs the lookup (one HTTP call) again. -/
theorem resolveGeo_cached_and_failure (cache : List GeoCacheRow) (ip : String)
    (api : GeoApiOutcome) :
    (∀ e, geoLookupCache cache ip = some e →
      resolveGeoLocation cache ip api
        = ({ country := e.country, lat := e.lat, lon := e.lon }, cache, 0))
    ∧ (geoLookupCache cache ip = none → geoFailed api = true →
      resolveGeoLocation cache ip api
        = ({ country := "Unknown", lat := 0, lon := 0 }, cache, 1))
    ∧ (geoLookupCache cache ip = none → geoFailed api = true →
      ∀ api2 : GeoApiOutcome,
        ((resolveGeoLocation (resolveGeoLocation cache ip api).2.1 ip api2).2.2 : Nat)
          = 1) := by
  refine ⟨?_, ?_, ?_⟩
  · intro e he
    unfold resolveGeoLocation
    rw [he]
  · intro hmiss hfail
    unfold resolveGeoLocation
    rw [hmiss]
    cases api with
    | fails => rfl
    | response st c la lo =>
      have hst : ¬st = "success" := by
        intro hx
        rw [geoFailed, hx] at hfail
        simp at hfail
      simp [hst]
  · intro hmiss hfail api2
    have hsame : (resolveGeoLocation cache ip api).2.1 = cache := by
      unfold resolveGeoLocation
      rw [hmiss]
      cases api with
      | fails => rfl
      | response st c la lo =>
        have hst : ¬st = "success" := by
          intro hx
          rw [geoFailed, hx] at hfail
          simp at hfail
        simp [hst]
    rw [hsame]
    unfold resolveGeoLocation
    rw [hmiss]
    cases api2 with
    | fails => rfl
    | response st c la lo =>
      by_cases hst : st = "success"
      · simp [hst]
      · simp [hst]

def c8Cache : List GeoCacheRow :=
  [{ ip := "10.0.0.1", country := "US", lat := 1, lon := 2 }]

theorem resolveGeo_cached_and_failure_witness :
    (geoLookupCache c8Cache "10.0.0.1"
        = some { ip := "10.0.0.1", country := "US", lat := 1, lon := 2 }
      ∧ resolveGeoLocation c8Cache "10.0.0.1" GeoApiOutcome.fails
        = ({ country := "US", lat := 1, lon := 2 }, c8Cache, 0))
    ∧ (geoLookupCache c8Cache "10.9.9.9" = none
      ∧ geoFailed (GeoApiOutcome.response "fail" "X" 5 6) = true
      ∧ resolveGeoLocation c8Cache "10.9.9.9"
          (GeoApiOutcome.response "fail" "X" 5 6)
        = ({ country := "Unknown", lat := 0, lon := 0 }, c8Cache, 1)
      ∧ (resolveGeoLocation
          (resolveGeoLocation c8Cache "10.9.9.9"
            (GeoApiOutcome.response "fail" "X" 5 6)).2.1 "10.9.9.9"
          GeoApiOutcome.fails).2.2 = 1) :=
  ⟨⟨by decide,
    (resolveGeo_cached_and_failure c8Cache "10.0.0.1" GeoApiOutcome.fails).1
      { ip := "10.0.0.1", country := "US", lat := 1, lon := 2 } (by decide)⟩,
   by decide, rfl,
   (resolveGeo_cached_and_failure c8Cache "10.9.9.9"
      (GeoApiOutcome.response "fail" "X" 5 6)).2.1 (by decide) rfl,
   (resolveGeo_cached_and_failure c8Cache "10.9.9.9"
      (GeoApiOutcome.response "fail" "X" 5 6)).2.2 (by decide) rfl
     GeoApiOutcome.fails⟩

/-! ## Cached paginated nodes route (app/api/nodes/route.ts)

The route serves the cached full node list (`getNodesList`), treated here as
an input value: the claim concerns only how the route paginates it.  JS
`parseInt` results are modelled as integers (the claim restricts itself to
numeric parameters). -/

/-- The precomputed aggregates stored alongside the cached node list. -/
structure CachedStats where
  totalNodes : ℕ
  totalStorage : ℚ
  totalCredits : ℚ
  activeCount : ℕ
  avgUptime : ℚ
deriving Repr, DecidableEq

structure CachedNodesData where
  nodes : List NodeRow
  stats : CachedStats
  timestamp : ℤ
deriving Repr, DecidableEq

structure Pagination where
  page : ℤ
  limit : ℤ
  totalPages : ℤ
  totalItems : ℕ
  hasNextPage : Bool
  hasPreviousPage : Bool
  cachedAt : ℤ
deriving Repr, DecidableEq

structure NodesResponse where
  nodes : List NodeRow
  stats : CachedStats
  pagination : Pagination
deriving Repr, DecidableEq

/-- The GET handler of the cached nodes route:
`validPage = max(1, page)`, `validLimit = min(max(1, limit), 2000)`,
`skip = (validPage - 1) * validLimit`, nodes = `slice(skip, skip + validLimit)`
of the cached array, stats passed through from the cache. -/
def nodesRouteGET (cachedData : CachedNodesData) (page limit : ℤ) :
    NodesResponse :=
  let validPage := max 1 page
  let validLimit := min (max 1 limit) 2000
  let skip := (validPage - 1) * validLimit
  let nodes := (cachedData.nodes.drop skip.toNat).take validLimit.toNat
  let totalNodes := cachedData.stats.totalNodes
  let totalPages := Int.ceil ((totalNodes : ℚ) / (validLimit : ℚ))
  { nodes := nodes
    stats := cachedData.stats
    pagination := {
      page := validPage
      limit := validLimit
      totalPages := totalPages
      totalItems := totalNodes
      hasNextPage := decide (validPage < totalPages)
      hasPreviousPage := decide (validPage > 1)
      cachedAt := cachedData.timestamp } }

/-- Claim C10: for every GET with numeric page and limit, the effective page
is `max(1, page)`, the effective limit is clamped to `[1, 2000]`, the
returned nodes array is exactly the slice of the cached full node list
starting at index `(effective page - 1) * effective limit` with length at
most the effective limit, and the aggregate stats are taken unchanged from
the cache. -/
theorem nodes_route_pagination (cd : CachedNodesData) (page limit : ℤ) :
    (nodesRouteGET cd page limit).pagination.page = max 1 page
    ∧ (nodesRouteGET cd page limit).pagination.limit = min (max 1 limit) 2000
    ∧ 1 ≤ (nodesRouteGET cd page limit).pagination.limit
    ∧ (nodesRouteGET cd page limit).pagination.limit ≤ 2000
    ∧ (nodesRouteGET cd page limit).nodes
        = (cd.nodes.drop ((max 1 page - 1) * min (max 1 limit) 2000).toNat).take
            (min (max 1 limit) 2000).toNat
    ∧ (nodesRouteGET cd page limit).nodes.length
        ≤ (min (max 1 limit) 2000).toNat
    ∧ (nodesRouteGET cd page limit).stats = cd.stats := by
  refine ⟨rfl, rfl, ?_, ?_, rfl, ?_, rfl⟩
  · show (1 : ℤ) ≤ min (max 1 limit) 2000
    omega
  · show min (max 1 limit) 2000 ≤ (2000 : ℤ)
    omega
  · show ((cd.nodes.drop ((max 1 page - 1) * min (max 1 limit) 2000).toNat).take
        (min (max 1 limit) 2000).toNat).length ≤ (min (max 1 limit) 2000).toNat
    exact List.length_take_le _ _

end Xandeum
